import Mathlib

/-!
Verification development for the GoalGetter real-time chat core.

This file gives a shallow embedding, in Lean, of the chat orchestration core
of the GoalGetter backend and proves properties of the embedded code:

- the chat Access Gate (`ChatAccessControl.can_access_chat` in
  `backend/app/api/routes/chat.py`);
- the connection registry (`ConnectionManager` in
  `backend/app/core/websocket_manager.py`);
- the context extraction and rolling summarization pipeline
  (`ContextService` in `backend/app/services/context_service.py`);
- the goal tool handler (`GoalToolHandler` in
  `backend/app/services/goal_tool_handler.py`);
- the websocket message loop and its tool-call round loop
  (`websocket_chat_endpoint` in `backend/app/api/routes/chat.py`).

Modelling conventions: timestamps are integers (minutes for the access gate,
seconds for the connection registry, abstract units elsewhere); Mongo object
ids are natural numbers; Mongo collections are Lean lists in natural
(insertion) order, so `find_one` without a sort returns the first matching
element; Python dicts are association lists; the LLM provider is an injected
script of stream events (for the websocket loop) or an injected parsed reply
(for extraction and summarization); awaited calls that can raise are given an
explicit success flag.
-/

namespace GoalGetter

/-! ## Association lists (Python dict model, keys are Mongo ids / sockets) -/

def alistGet {α : Type} : List (Nat × α) → Nat → Option α
  | [], _ => none
  | (k₀, v) :: rest, k => if k₀ = k then some v else alistGet rest k

def alistSet {α : Type} : List (Nat × α) → Nat → α → List (Nat × α)
  | [], k, v => [(k, v)]
  | (k₀, v₀) :: rest, k, v =>
      if k₀ = k then (k, v) :: rest else (k₀, v₀) :: alistSet rest k v

def alistRemove {α : Type} : List (Nat × α) → Nat → List (Nat × α)
  | [], _ => []
  | (k₀, v₀) :: rest, k =>
      if k₀ = k then rest else (k₀, v₀) :: alistRemove rest k

/-! ## Stable sort by an integer key (model of a Mongo sort on one field;
Mongo sorts stably with respect to natural order for our purposes) -/

def insertOn {α : Type} (key : α → Int) (x : α) : List α → List α
  | [] => [x]
  | y :: ys => if key x ≤ key y then x :: y :: ys else y :: insertOn key x ys

def sortOn {α : Type} (key : α → Int) : List α → List α
  | [] => []
  | x :: xs => insertOn key x (sortOn key xs)

/-! ## Access Gate (`ChatAccessControl` in `backend/app/api/routes/chat.py`)

Constants are the values from `backend/app/core/config.py`. -/

def MEETING_WINDOW_BEFORE_MINUTES : Int := 30

def MEETING_WINDOW_AFTER_MINUTES : Int := 60

def DEFAULT_MEETING_DURATION_MINUTES : Int := 30

structure Meeting where
  mid : Nat
  user_id : Nat
  status : String
  scheduled_at : Int
  duration_minutes : Option Int
deriving Repr, DecidableEq

structure AccessResult where
  can_access : Bool
  reason : String
  user_phase : String
  next_available : Option Int
  meeting_id : Option Nat
deriving Repr, DecidableEq

/-- Filter of the first `db.meetings.find_one` query in `can_access_chat`:
status in scheduled/active and `scheduled_at` between `now - W_before`
and `now + 2 hours`. -/
def meetingWindowQuery (uid : Nat) (now : Int) (m : Meeting) : Bool :=
  m.user_id == uid
    && (m.status == "scheduled" || m.status == "active")
    && decide (now - MEETING_WINDOW_BEFORE_MINUTES ≤ m.scheduled_at)
    && decide (m.scheduled_at ≤ now + 120)

/-- Filter of the second `find_one` query in `can_access_chat`: future
scheduled meetings. -/
def nextScheduledQuery (uid : Nat) (now : Int) (m : Meeting) : Bool :=
  m.user_id == uid && m.status == "scheduled" && decide (now < m.scheduled_at)

/-- Model of `find_one` with an ascending sort on `scheduled_at`: the first
element attaining the minimal `scheduled_at` (Mongo sort is stable). -/
def findMinScheduledAt (ms : List Meeting) : Option Meeting :=
  ms.foldl (fun acc m =>
    match acc with
    | none => some m
    | some b => if m.scheduled_at < b.scheduled_at then some m else some b) none

/-- Result of the shared tracking-phase fall-through in `can_access_chat`
(no active meeting window found): deny, with `next_available` taken from the
earliest future scheduled meeting if any. -/
def trackingDeniedResult (uid : Nat) (phase : String) (meetings : List Meeting)
    (now : Int) : AccessResult :=
  let next := findMinScheduledAt (meetings.filter (nextScheduledQuery uid now))
  { can_access := false
    reason := "Chat is only available during scheduled meetings in tracking phase"
    user_phase := phase
    next_available := next.map (fun m => m.scheduled_at - MEETING_WINDOW_BEFORE_MINUTES)
    meeting_id := none }

/-- Embedding of `ChatAccessControl.can_access_chat`. -/
def can_access_chat (uid : Nat) (user_phase : String) (meetings : List Meeting)
    (now : Int) : AccessResult :=
  if user_phase == "goal_setting" then
    { can_access := true
      reason := "Goal setting phase - unlimited coach access"
      user_phase := user_phase
      next_available := none
      meeting_id := none }
  else if user_phase == "tracking" then
    match meetings.find? (meetingWindowQuery uid now) with
    | some meeting =>
        let duration := meeting.duration_minutes.getD DEFAULT_MEETING_DURATION_MINUTES
        let window_open := meeting.scheduled_at - MEETING_WINDOW_BEFORE_MINUTES
        let window_close := meeting.scheduled_at + (duration + MEETING_WINDOW_AFTER_MINUTES)
        if window_open ≤ now ∧ now ≤ window_close then
          { can_access := true
            reason := "Active meeting window"
            user_phase := user_phase
            next_available := none
            meeting_id := some meeting.mid }
        else trackingDeniedResult uid user_phase meetings now
    | none => trackingDeniedResult uid user_phase meetings now
  else
    { can_access := false
      reason := "Invalid user phase"
      user_phase := user_phase
      next_available := none
      meeting_id := none }

/-- Spec-side predicate (from the words of the specification): the meeting
window `[scheduled_at - W_before, scheduled_at + duration + W_after]`
contains `now`. -/
def meetingWindowContains (m : Meeting) (now : Int) : Prop :=
  m.scheduled_at - MEETING_WINDOW_BEFORE_MINUTES ≤ now ∧
    now ≤ m.scheduled_at +
      (m.duration_minutes.getD DEFAULT_MEETING_DURATION_MINUTES + MEETING_WINDOW_AFTER_MINUTES)

instance (m : Meeting) (now : Int) : Decidable (meetingWindowContains m now) := by
  unfold meetingWindowContains; infer_instance

/-! ## Connection Registry (`ConnectionManager` in
`backend/app/core/websocket_manager.py`)

Sockets and identifiers are natural numbers; timestamps are integers
(seconds). `connect` takes an extra `acceptOk` flag modelling whether
`await websocket.accept()` (the only awaited call inside it that can raise)
succeeds; an exception there is caught by the surrounding `try` and turned
into a `False` return. -/

def MAX_CONNECTIONS_PER_USER : Nat := 5

def MAX_CONNECTION_ATTEMPTS_PER_MINUTE : Nat := 10

def CONNECTION_ATTEMPT_WINDOW_SECONDS : Int := 60

structure ConnInfo where
  user_id : Nat
  user_phase : String
  session_id : Option Nat
  client_ip : Option Nat
  connected_at : Int
  message_count : Nat
deriving Repr, DecidableEq

structure ConnectionManagerState where
  active_connections : List (Nat × List Nat)
  connection_info : List (Nat × ConnInfo)
  connection_attempts : List (Nat × List Int)
  ip_connection_attempts : List (Nat × List Int)
deriving Repr, DecidableEq

/-- Embedding of `ConnectionManager._clean_old_attempts`. -/
def clean_old_attempts (now : Int) (attempts : List Int) : List Int :=
  attempts.filter (fun ts => decide (now - CONNECTION_ATTEMPT_WINDOW_SECONDS < ts))

/-- Embedding of `ConnectionManager._check_rate_limit`; it prunes the stored
attempt list in place, so it returns the updated dict alongside the verdict. -/
def check_rate_limit (now : Int) (identifier : Nat) (d : List (Nat × List Int)) :
    Bool × List (Nat × List Int) :=
  let cleaned := clean_old_attempts now ((alistGet d identifier).getD [])
  (cleaned.length < MAX_CONNECTION_ATTEMPTS_PER_MINUTE, alistSet d identifier cleaned)

/-- Embedding of `ConnectionManager._record_attempt`. -/
def record_attempt (now : Int) (identifier : Nat) (d : List (Nat × List Int)) :
    List (Nat × List Int) :=
  alistSet d identifier (((alistGet d identifier).getD []) ++ [now])

/-- Embedding of `ConnectionManager.get_user_connection_count`. -/
def get_user_connection_count (s : ConnectionManagerState) (uid : Nat) : Nat :=
  ((alistGet s.active_connections uid).getD []).length

/-- Embedding of `ConnectionManager.connect`. -/
def connect (s : ConnectionManagerState) (ws : Nat) (uid : Nat) (user_phase : String)
    (session_id : Option Nat) (client_ip : Option Nat) (now : Int) (acceptOk : Bool) :
    Bool × ConnectionManagerState :=
  let (okUser, dUser) := check_rate_limit now uid s.connection_attempts
  let s1 := { s with connection_attempts := dUser }
  if !okUser then (false, s1)
  else
    let (okIp, s2) :=
      match client_ip with
      | some ip =>
          let (ok, dIp) := check_rate_limit now ip s1.ip_connection_attempts
          (ok, { s1 with ip_connection_attempts := dIp })
      | none => (true, s1)
    if !okIp then (false, s2)
    else if MAX_CONNECTIONS_PER_USER ≤ get_user_connection_count s2 uid then (false, s2)
    else
      let s3 := { s2 with connection_attempts := record_attempt now uid s2.connection_attempts }
      let s4 :=
        match client_ip with
        | some ip =>
            { s3 with ip_connection_attempts := record_attempt now ip s3.ip_connection_attempts }
        | none => s3
      if !acceptOk then (false, s4)
      else
        let conns := (alistGet s4.active_connections uid).getD []
        let conns2 := if conns.contains ws then conns else conns ++ [ws]
        (true,
          { s4 with
            active_connections := alistSet s4.active_connections uid conns2
            connection_info := alistSet s4.connection_info ws
              { user_id := uid, user_phase := user_phase, session_id := session_id
                client_ip := client_ip, connected_at := now, message_count := 0 } })

/-- State of the registry after the two admission rate checks have pruned
the attempt logs of the checked identifiers (the user always, the client ip
when given). -/
def pruneAttempts (s : ConnectionManagerState) (uid : Nat) (cip : Option Nat)
    (now : Int) : ConnectionManagerState :=
  let cleanedU :=
    clean_old_attempts now ((alistGet s.connection_attempts uid).getD [])
  let s1 := { s with connection_attempts := alistSet s.connection_attempts uid cleanedU }
  match cip with
  | some ip =>
      let cleanedIp :=
        clean_old_attempts now ((alistGet s1.ip_connection_attempts ip).getD [])
      { s1 with ip_connection_attempts := alistSet s1.ip_connection_attempts ip cleanedIp }
  | none => s1

/-- State of the registry after `_record_attempt` has run for the user (and
the client ip when given). -/
def recordAttempts (s : ConnectionManagerState) (uid : Nat) (cip : Option Nat)
    (now : Int) : ConnectionManagerState :=
  let s3 := { s with connection_attempts := record_attempt now uid s.connection_attempts }
  match cip with
  | some ip =>
      { s3 with ip_connection_attempts := record_attempt now ip s3.ip_connection_attempts }
  | none => s3

/-- Embedding of `ConnectionManager.disconnect`. -/
def disconnect (s : ConnectionManagerState) (ws : Nat) :
    Option Nat × ConnectionManagerState :=
  match alistGet s.connection_info ws with
  | none => (none, s)
  | some info =>
      let s1 := { s with connection_info := alistRemove s.connection_info ws }
      let uid := info.user_id
      match alistGet s1.active_connections uid with
      | none => (some uid, s1)
      | some conns =>
          let conns2 := conns.filter (fun c => c != ws)
          if conns2.isEmpty then
            (some uid, { s1 with active_connections := alistRemove s1.active_connections uid })
          else
            (some uid, { s1 with active_connections := alistSet s1.active_connections uid conns2 })

/-! ## Context Extractor and Rolling Summarizer (`ContextService` in
`backend/app/services/context_service.py`, record shapes from
`backend/app/models/session_context.py`)

The LLM provider reply is injected already parsed: `Except Unit (Option p)`
with `.error ()` for an exception raised by `send_message`, `.ok none` for a
reply whose first-brace/last-brace span is absent or fails `json.loads`, and
`.ok (some payload)` for a parsed JSON payload (dict `.get` defaults are
folded into the payload's `Option` fields). Database writes take an explicit
success flag, since `save_session_context` catches insert failures and
returns `None`. -/

def SUMMARIZATION_THRESHOLD : Nat := 20

def SESSIONS_TO_SUMMARIZE : Nat := 10

def VALID_CONTEXT_TYPES : List String :=
  ["goal_progress", "decision", "discussion", "progress",
   "action_item", "insight", "preference", "blocker"]

structure ContextPoint where
  type : String
  content : String
  related_goal_id : Option Nat
  timestamp : Int
deriving Repr, DecidableEq

/-- Stored `session_contexts` record; `sid` is the Mongo `_id`. -/
structure SessionContext where
  sid : Nat
  user_id : Nat
  session_id : String
  created_at : Int
  ended_at : Option Int
  context_points : List ContextPoint
  message_count : Nat
  goals_created : Nat
  goals_updated : Nat
  goals_completed : Nat
  is_summary : Bool
  summarized_session_ids : Option (List String)
deriving Repr, DecidableEq

/-- A `session_contexts` document before insertion (no `_id` yet). -/
structure SessionContextDoc where
  user_id : Nat
  session_id : String
  created_at : Int
  ended_at : Option Int
  context_points : List ContextPoint
  message_count : Nat
  goals_created : Nat
  goals_updated : Nat
  goals_completed : Nat
  is_summary : Bool
  summarized_session_ids : Option (List String)
deriving Repr, DecidableEq

structure SessionContextDb where
  sessions : List SessionContext
  next_id : Nat
deriving Repr, DecidableEq

def insertSessionContext (db : SessionContextDb) (doc : SessionContextDoc) :
    Nat × SessionContextDb :=
  (db.next_id,
   { sessions := db.sessions ++
       [{ sid := db.next_id, user_id := doc.user_id, session_id := doc.session_id
          created_at := doc.created_at, ended_at := doc.ended_at
          context_points := doc.context_points, message_count := doc.message_count
          goals_created := doc.goals_created, goals_updated := doc.goals_updated
          goals_completed := doc.goals_completed, is_summary := doc.is_summary
          summarized_session_ids := doc.summarized_session_ids }]
     next_id := db.next_id + 1 })

/-- Embedding of `ContextService.save_session_context`: the insert can fail,
in which case the exception is caught and `None` is returned. -/
def save_session_context (saveOk : Bool) (db : SessionContextDb)
    (doc : SessionContextDoc) : Option Nat × SessionContextDb :=
  if saveOk then
    let (i, db1) := insertSessionContext db doc
    (some i, db1)
  else (none, db)

/-- Embedding of `ContextService.get_unsummarized_sessions` (sorted ascending
by `created_at`, `to_list(length=100)`). -/
def get_unsummarized_sessions (db : SessionContextDb) (uid : Nat) :
    List SessionContext :=
  (sortOn (fun s => s.created_at)
    (db.sessions.filter (fun s => s.user_id == uid && !s.is_summary))).take 100

/-- One context point of a parsed LLM reply, before validation; `.get`
defaults are represented by the `Option` fields. -/
structure RawContextPoint where
  rtype : Option String
  rcontent : Option String
deriving Repr, DecidableEq

/-- Embedding of `ContextService.create_session_summary`. `llm` is the
injected parsed reply (its `context_points` list), `summaryUuid` the
generated uuid, `now` the current time. -/
def create_session_summary (uid : Nat) (sessions : List SessionContext)
    (llm : Except Unit (Option (List RawContextPoint))) (summaryUuid : String)
    (_now : Int) : Option SessionContextDoc :=
  match sessions with
  | [] => none
  | s0 :: _ =>
      let total_message_count := (sessions.map (fun s => s.message_count)).sum
      let total_goals_created := (sessions.map (fun s => s.goals_created)).sum
      let total_goals_updated := (sessions.map (fun s => s.goals_updated)).sum
      let total_goals_completed := (sessions.map (fun s => s.goals_completed)).sum
      let context_text_parts := sessions.flatMap (fun s =>
        s.context_points.map (fun p => "- [" ++ p.type ++ "] " ++ p.content))
      if context_text_parts.isEmpty then none
      else
        let date_range_start := s0.created_at
        let lastS := sessions.getLastD s0
        let date_range_end := lastS.ended_at.getD lastS.created_at
        match llm with
        | .error _ => none
        | .ok none => none
        | .ok (some rawPoints) =>
            let context_points := rawPoints.filterMap (fun p =>
              match p.rtype with
              | some t =>
                  if VALID_CONTEXT_TYPES.contains t then
                    some { type := t, content := p.rcontent.getD ""
                           related_goal_id := none, timestamp := date_range_end }
                  else none
              | none => none)
            some { user_id := uid
                   session_id := "summary-" ++ summaryUuid
                   created_at := date_range_start
                   ended_at := some date_range_end
                   context_points := context_points
                   message_count := total_message_count
                   goals_created := total_goals_created
                   goals_updated := total_goals_updated
                   goals_completed := total_goals_completed
                   is_summary := true
                   summarized_session_ids := some (sessions.map (fun s => s.session_id)) }

/-- Embedding of `ContextService.maybe_summarize_old_sessions`. -/
def maybe_summarize_old_sessions (db : SessionContextDb) (uid : Nat)
    (llm : Except Unit (Option (List RawContextPoint))) (saveOk : Bool)
    (summaryUuid : String) (now : Int) : Option Nat × SessionContextDb :=
  let unsummarized := get_unsummarized_sessions db uid
  if unsummarized.length < SUMMARIZATION_THRESHOLD then (none, db)
  else
    let to_summarize := unsummarized.take SESSIONS_TO_SUMMARIZE
    match create_session_summary uid to_summarize llm summaryUuid now with
    | none => (none, db)
    | some summaryDoc =>
        let (summary_id, db1) := save_session_context saveOk db summaryDoc
        let session_ids := to_summarize.map (fun s => s.sid)
        let db2 := { db1 with
          sessions := db1.sessions.filter (fun s => !(session_ids.contains s.sid)) }
        (summary_id, db2)

/-! ### Context extraction (`extract_session_context`, `extract_and_save_context`) -/

structure HistoryMsg where
  role : String
  content : String
deriving Repr, DecidableEq

/-- One goal section of a parsed extraction reply. -/
structure RawGoalSection where
  goal_name : Option String
  goal_id : Option Nat
  key_points : List RawContextPoint
deriving Repr, DecidableEq

structure RawStats where
  goals_created : Option Nat
  goals_updated : Option Nat
  goals_completed : Option Nat
deriving Repr, DecidableEq

/-- Parsed payload of an extraction reply (`goals`, `general_insights`,
`stats` with their `.get` defaults as `Option`s). -/
structure ExtractPayload where
  goals : List RawGoalSection
  general_insights : List RawContextPoint
  stats : Option RawStats
deriving Repr, DecidableEq

/-- Embedding of `ContextService.extract_session_context`. -/
def extract_session_context (uid : Nat) (session_id : String)
    (conversation_history : List HistoryMsg)
    (llm : Except Unit (Option ExtractPayload)) (now : Int) :
    Option SessionContextDoc :=
  if conversation_history.length < 2 then none
  else
    match llm with
    | .error _ => none
    | .ok none => none
    | .ok (some payload) =>
        let goalPoints := payload.goals.flatMap (fun g =>
          let gname := g.goal_name.getD "Unknown goal"
          g.key_points.filterMap (fun p =>
            let ptype := p.rtype.getD "discussion"
            if VALID_CONTEXT_TYPES.contains ptype then
              some { type := ptype
                     content := "[" ++ gname ++ "] " ++ p.rcontent.getD ""
                     related_goal_id := g.goal_id, timestamp := now }
            else none))
        let insightPoints := payload.general_insights.filterMap (fun p =>
          match p.rtype with
          | some t =>
              if VALID_CONTEXT_TYPES.contains t then
                some { type := t, content := p.rcontent.getD ""
                       related_goal_id := none, timestamp := now }
              else none
          | none => none)
        let stats := payload.stats
        some { user_id := uid
               session_id := session_id
               created_at := now
               ended_at := some now
               context_points := goalPoints ++ insightPoints
               message_count := conversation_history.length
               goals_created := (stats.bind (fun st => st.goals_created)).getD 0
               goals_updated := (stats.bind (fun st => st.goals_updated)).getD 0
               goals_completed := (stats.bind (fun st => st.goals_completed)).getD 0
               is_summary := false
               summarized_session_ids := none }

/-- Embedding of `ContextService.extract_and_save_context`. `fetched` stands
for the result of `get_conversation_history(user_id)` when no history is
supplied by the caller. -/
def extract_and_save_context (db : SessionContextDb) (uid : Nat)
    (session_id : String) (conversation_history : Option (List HistoryMsg))
    (fetched : List HistoryMsg)
    (llmExtract : Except Unit (Option ExtractPayload))
    (llmSummarize : Except Unit (Option (List RawContextPoint)))
    (saveSessionOk saveSummaryOk : Bool) (summaryUuid : String) (now : Int) :
    Option Nat × SessionContextDb :=
  let hist := conversation_history.getD fetched
  if hist.length < 2 then (none, db)
  else
    match extract_session_context uid session_id hist llmExtract now with
    | none => (none, db)
    | some doc =>
        if doc.context_points.isEmpty then (none, db)
        else
          let (context_id, db1) := save_session_context saveSessionOk db doc
          match context_id with
          | none => (none, db1)
          | some cid =>
              let (_summaryId, db2) :=
                maybe_summarize_old_sessions db1 uid llmSummarize saveSummaryOk
                  summaryUuid now
              (some cid, db2)

/-! ## Goal Tool Handler (`GoalToolHandler` in
`backend/app/services/goal_tool_handler.py`, record shape from
`backend/app/models/goal.py`)

A goal id arriving in tool input is a string: either the literal
`"current"`, a well-formed ObjectId (`ObjectId.is_valid` true, modelled as
`objId n`), or any other string (`malformed s`, `is_valid` false). -/

inductive GIdRef where
  | current
  | objId (g : Nat)
  | malformed (s : String)
deriving Repr, DecidableEq

/-- Python truthiness of the goal-id string (`None` is handled separately;
the empty string is falsy). -/
def GIdRef.truthy : GIdRef → Bool
  | .malformed s => s ≠ ""
  | _ => true

/-- Model of `ObjectId.is_valid` on goal-id strings. -/
def GIdRef.is_valid : GIdRef → Bool
  | .objId _ => true
  | _ => false

def GIdRef.asString : GIdRef → String
  | .current => "current"
  | .objId g => toString g
  | .malformed s => s

structure MilestoneInput where
  title : Option String
  description : Option String
  target_date : Option String
  completed : Option Bool
deriving Repr, DecidableEq

/-- Tool input dict; absent keys are `none`. -/
structure ToolInput where
  title : Option String
  content : Option String
  template_type : Option String
  deadline : Option String
  milestones : Option (List MilestoneInput)
  tags : Option (List String)
  goal_id : Option GIdRef
  phase : Option String
  content_format : Option String
  add_milestone : Option MilestoneInput
deriving Repr, DecidableEq

structure Milestone where
  title : String
  description : String
  target_date : Option String
  completed : Bool
  completed_at : Option Int
deriving Repr, DecidableEq

/-- Stored goal record; metadata fields are inlined. `content_format` is
`none` when the metadata key is absent. -/
structure Goal where
  gid : Nat
  user_id : Nat
  title : String
  content : String
  phase : String
  template_type : String
  created_at : Int
  updated_at : Int
  deadline : Option String
  milestones : List Milestone
  tags : List String
  content_format : Option String
deriving Repr, DecidableEq

structure GoalsDb where
  goals : List Goal
  next_id : Nat
deriving Repr, DecidableEq

structure ToolResult where
  success : Bool
  goal_id : Option Nat
  goal : Option Goal
  error : Option String
deriving Repr, DecidableEq

/-- Embedding of `GoalModel.create_goal_document` (metadata defaults:
no deadline, no milestones, no tags, no `content_format` key); the `_id` is
assigned by the caller at insertion. -/
def create_goal_document (uid : Nat) (title content phase template_type : String)
    (now : Int) (gid : Nat) : Goal :=
  { gid := gid, user_id := uid, title := title, content := content
    phase := phase, template_type := template_type
    created_at := now, updated_at := now
    deadline := none, milestones := [], tags := [], content_format := none }

/-- Milestone formatting in `_create_goal` (always `completed: False`). -/
def formatMilestoneCreate (m : MilestoneInput) : Milestone :=
  { title := m.title.getD "", description := m.description.getD ""
    target_date := m.target_date, completed := false, completed_at := none }

/-- Milestone formatting in `_update_goal` replace mode
(`completed` taken from the input with default `False`). -/
def formatMilestoneUpdate (m : MilestoneInput) : Milestone :=
  { title := m.title.getD "", description := m.description.getD ""
    target_date := m.target_date, completed := m.completed.getD false
    completed_at := none }

/-- Embedding of `GoalToolHandler._create_goal`. -/
def create_goal (db : GoalsDb) (uid : Nat) (inp : ToolInput) (now : Int) :
    ToolResult × GoalsDb :=
  let g0 := create_goal_document uid (inp.title.getD "Untitled Goal")
    (inp.content.getD "") "draft" (inp.template_type.getD "custom") now db.next_id
  let g := { g0 with
    deadline := inp.deadline
    milestones := (inp.milestones.getD []).map formatMilestoneCreate
    tags := inp.tags.getD []
    content_format := some (inp.content_format.getD "markdown") }
  ({ success := true, goal_id := some g.gid, goal := some g, error := none },
   { goals := db.goals ++ [g], next_id := db.next_id + 1 })

/-- Embedding of `GoalToolHandler._create_goal_minimal` (title only, empty
content, no `content_format` yet). -/
def create_goal_minimal (db : GoalsDb) (uid : Nat) (inp : ToolInput) (now : Int) :
    ToolResult × GoalsDb :=
  let g := create_goal_document uid (inp.title.getD "New Goal") "" "draft"
    (inp.template_type.getD "custom") now db.next_id
  ({ success := true, goal_id := some g.gid, goal := none, error := none },
   { goals := db.goals ++ [g], next_id := db.next_id + 1 })

/-- Application of the `$set` update dict built in `_update_goal` (plus the
`$push` of `add_milestone`, which the code issues first and which commutes
with the `$set` since that branch never sets `metadata.milestones`). -/
def applyUpdateFields (inp : ToolInput) (now : Int) (g : Goal) : Goal :=
  let g := { g with updated_at := now }
  let g := match inp.title with
    | some t => { g with title := t }
    | none => g
  let g := match inp.content with
    | some c => { g with content := c,
                         content_format := some (inp.content_format.getD "markdown") }
    | none => g
  let g := match inp.deadline with
    | some d => { g with deadline := some d }
    | none => g
  let g := match inp.tags with
    | some ts => { g with tags := ts }
    | none => g
  match inp.milestones with
  | some ms => { g with milestones := ms.map formatMilestoneUpdate }
  | none =>
      match inp.add_milestone with
      | some m => { g with milestones := g.milestones ++ [formatMilestoneCreate m] }
      | none => g

/-- Embedding of `GoalToolHandler._update_goal`. -/
def update_goal (db : GoalsDb) (uid : Nat) (inp : ToolInput)
    (active_goal_id : Option GIdRef) (now : Int) : ToolResult × GoalsDb :=
  let goal_id := inp.goal_id.getD (GIdRef.malformed "")
  let resolved : Except ToolResult GIdRef :=
    if goal_id = GIdRef.current then
      match active_goal_id with
      | none => .error { success := false, goal_id := none, goal := none
                         error := some "No active goal in editor to update" }
      | some a => .ok a
    else .ok goal_id
  match resolved with
  | .error r => (r, db)
  | .ok gref =>
      match gref with
      | .objId gid =>
          match db.goals.find? (fun g => g.gid == gid && g.user_id == uid) with
          | none =>
              ({ success := false, goal_id := none, goal := none
                 error := some ("Goal not found: " ++ toString gid) }, db)
          | some _found =>
              let db1 := { db with goals := db.goals.map (fun g =>
                if g.gid == gid then applyUpdateFields inp now g else g) }
              let updated := db1.goals.find? (fun g => g.gid == gid)
              ({ success := true, goal_id := some gid, goal := updated, error := none },
               db1)
      | _ =>
          ({ success := false, goal_id := none, goal := none
             error := some ("Invalid goal ID: " ++ gref.asString) }, db)

def VALID_PHASES : List String := ["draft", "active", "completed", "archived"]

/-- Embedding of `GoalToolHandler._set_goal_phase`. -/
def set_goal_phase (db : GoalsDb) (uid : Nat) (inp : ToolInput)
    (active_goal_id : Option GIdRef) (now : Int) : ToolResult × GoalsDb :=
  let new_phase := inp.phase.getD ""
  if !(VALID_PHASES.contains new_phase) then
    ({ success := false, goal_id := none, goal := none
       error := some ("Invalid phase: " ++ new_phase) }, db)
  else
    let goal_id := inp.goal_id.getD (GIdRef.malformed "")
    let resolved : Except ToolResult GIdRef :=
      if goal_id = GIdRef.current then
        match active_goal_id with
        | none => .error { success := false, goal_id := none, goal := none
                           error := some "No active goal in editor to update" }
        | some a => .ok a
      else .ok goal_id
    match resolved with
    | .error r => (r, db)
    | .ok gref =>
        match gref with
        | .objId gid =>
            match db.goals.find? (fun g => g.gid == gid && g.user_id == uid) with
            | none =>
                ({ success := false, goal_id := none, goal := none
                   error := some ("Goal not found: " ++ toString gid) }, db)
            | some _found =>
                let db1 := { db with goals := db.goals.map (fun g =>
                  if g.gid == gid then { g with phase := new_phase, updated_at := now }
                  else g) }
                let updated := db1.goals.find? (fun g => g.gid == gid)
                ({ success := true, goal_id := some gid, goal := updated, error := none },
                 db1)
        | _ =>
            ({ success := false, goal_id := none, goal := none
               error := some ("Invalid goal ID: " ++ gref.asString) }, db)

/-- Embedding of `GoalToolHandler.execute_tool`. -/
def execute_tool (db : GoalsDb) (uid : Nat) (tool_name : String) (inp : ToolInput)
    (active_goal_id : Option GIdRef) (now : Int) : ToolResult × GoalsDb :=
  if tool_name == "create_goal" then create_goal db uid inp now
  else if tool_name == "update_goal" then update_goal db uid inp active_goal_id now
  else if tool_name == "set_goal_phase" then set_goal_phase db uid inp active_goal_id now
  else
    ({ success := false, goal_id := none, goal := none
       error := some ("Unknown tool: " ++ tool_name) }, db)

/-- Embedding of `get_user_goals` in `backend/app/api/routes/chat.py`:
non-archived goals of the user, most recently updated first, limit 5. -/
def get_user_goals (db : GoalsDb) (uid : Nat) : List Goal :=
  (sortOn (fun g => -g.updated_at)
    (db.goals.filter (fun g => g.user_id == uid && g.phase != "archived"))).take 5

/-! ## Websocket message loop (`websocket_chat_endpoint` in
`backend/app/api/routes/chat.py`)

The loop is modelled from the point where a connection is established: a
list of inbound payloads is processed in order (the connection closes when
the list ends). The LLM provider is a script mapping the 1-based round
number of the current turn to the stream events it yields that round; each
`message` turn consumes the next script from a list. `llm_error` is `some e`
when `LLMServiceFactory.get_service()` raises `ValueError(e)`. -/

inductive StreamEvent where
  | chunk (content : String)
  | toolCall (tool_name : String) (tool_id : Nat) (tool_input : ToolInput)
  | complete (tokens_used : Nat) (model : Option String)
  | errorEv (content : String) (error : Option String)
deriving Repr, DecidableEq

inductive OutEvent where
  | pongEv
  | typingEv
  | responseChunk (content : String)
  | toolCallEv (tool : String) (tool_result : ToolResult)
  | focusGoal (goal_id : GIdRef)
  | errorEv (content : String) (error : Option String) (next_available : Option Int)
  | responseEv (content : String) (message_id : Nat) (tokens_used : Nat)
deriving Repr, DecidableEq

structure ChatMsg where
  user_id : Nat
  role : String
  content : String
  meeting_id : Option Nat
  model : Option String
  tokens_used : Option Nat
deriving Repr, DecidableEq

structure ChatDb where
  messages : List ChatMsg
deriving Repr, DecidableEq

/-- Insertion into `chat_messages`; the returned id is the insertion index. -/
def insertChatMessage (db : ChatDb) (m : ChatMsg) : Nat × ChatDb :=
  (db.messages.length, ⟨db.messages ++ [m]⟩)

structure ToolCallRecord where
  id : Nat
  name : String
  arguments : ToolInput
deriving Repr, DecidableEq

/-- Transcript entry for follow-up provider calls. -/
inductive HistEntry where
  | plain (role : String) (content : String)
  | assistantToolCalls (content : Option String) (tool_calls : List ToolCallRecord)
  | toolResultMsg (tool_call_id : Nat) (result : ToolResult)
deriving Repr, DecidableEq

/-- Embedding of `get_conversation_history` composed with
`MessageModel.to_chat_history_format` (last 10 matching messages in
chronological order, restricted to user/assistant roles). -/
def get_conversation_history_ws (chat : ChatDb) (uid : Nat)
    (meeting_id : Option Nat) : List HistEntry :=
  let q := chat.messages.filter (fun m => m.user_id == uid &&
    (match meeting_id with
     | some mid => m.meeting_id == some mid
     | none => true))
  ((q.reverse.take 10).reverse).filterMap (fun m =>
    if m.role == "user" || m.role == "assistant" then
      some (HistEntry.plain m.role m.content)
    else none)

structure TurnCtx where
  uid : Nat
  user_phase : String
  meetings : List Meeting
  meeting_id : Option Nat
  now : Int
deriving Repr, DecidableEq

/-- Per-connection persistent state seen by the loop: the goals store, the
chat-message store and the cached `user_goals` view. -/
structure SessionSt where
  goalsDb : GoalsDb
  chat : ChatDb
  user_goals : List Goal
deriving Repr, DecidableEq

/-- Per-turn mutable state of the tool round loop, plus the ordered list of
outbound events sent so far this turn. -/
structure TurnSt where
  sess : SessionSt
  full_response : String
  tokens_used : Nat
  model_used : Option String
  current_history : List HistEntry
  events : List OutEvent
deriving Repr, DecidableEq

/-- The three per-round accumulators of the loop body. -/
structure RoundAcc where
  tool_calls : List ToolCallRecord
  tool_results : List (Nat × ToolResult)
  round_content : String
deriving Repr, DecidableEq

/-- The `populate_input` dict built in the `create_goal` two-step branch. -/
def populate_input (inp : ToolInput) (gid : Nat) : ToolInput :=
  { goal_id := some (GIdRef.objId gid), title := inp.title, content := inp.content
    deadline := inp.deadline, milestones := inp.milestones, tags := inp.tags
    template_type := none, phase := none, content_format := none
    add_milestone := none }

/-- Resolution of `goal_id_to_focus` (the literal `"current"` is replaced by
the client-supplied active goal id). -/
def focusTarget (goal_id : Option GIdRef) (active_goal_id : Option GIdRef) :
    Option GIdRef :=
  match goal_id with
  | some GIdRef.current => active_goal_id
  | x => x

/-- Embedding of the `tool_call` stream-event branch of the round loop:
pre-execution `focus_goal` for update/set, the `create_goal` two-step
sequence or regular `execute_tool`, the `tool_call` outbound event, the
goals refresh on success, and the round accumulators. -/
def processToolCall (ctx : TurnCtx) (active_goal_id : Option GIdRef)
    (st : TurnSt) (acc : RoundAcc) (tool_name : String) (tool_id : Nat)
    (tool_input : ToolInput) : TurnSt × RoundAcc :=
  let st :=
    if tool_name == "update_goal" || tool_name == "set_goal_phase" then
      match focusTarget tool_input.goal_id active_goal_id with
      | some r =>
          if r.truthy then { st with events := st.events ++ [.focusGoal r] } else st
      | none => st
    else st
  let (st, tool_result) :=
    if tool_name == "create_goal" then
      let (minimal, db1) := create_goal_minimal st.sess.goalsDb ctx.uid tool_input ctx.now
      if minimal.success then
        match minimal.goal_id with
        | some gid =>
            let st := { st with
              events := st.events ++ [OutEvent.focusGoal (GIdRef.objId gid)]
              sess := { st.sess with goalsDb := db1 } }
            let (r, db2) := update_goal db1 ctx.uid (populate_input tool_input gid)
              (some (GIdRef.objId gid)) ctx.now
            ({ st with sess := { st.sess with goalsDb := db2 } },
             { r with goal_id := some gid })
        | none => ({ st with sess := { st.sess with goalsDb := db1 } }, minimal)
      else ({ st with sess := { st.sess with goalsDb := db1 } }, minimal)
    else
      let (r, db1) := execute_tool st.sess.goalsDb ctx.uid tool_name tool_input
        active_goal_id ctx.now
      ({ st with sess := { st.sess with goalsDb := db1 } }, r)
  let st := { st with events := st.events ++ [.toolCallEv tool_name tool_result] }
  let st :=
    if tool_result.success then
      { st with sess :=
          { st.sess with user_goals := get_user_goals st.sess.goalsDb ctx.uid } }
    else st
  (st,
   { acc with
     tool_calls := acc.tool_calls ++ [{ id := tool_id, name := tool_name
                                        arguments := tool_input }]
     tool_results := acc.tool_results ++ [(tool_id, tool_result)] })

/-- Consumption of one round's event stream (`async for chunk in
llm_service.stream_message(...)`). Returns the state, the round
accumulators, and whether an `error` event aborted the stream. -/
def runRound (ctx : TurnCtx) (active_goal_id : Option GIdRef) :
    TurnSt → RoundAcc → List StreamEvent → TurnSt × RoundAcc × Bool
  | st, acc, [] => (st, acc, false)
  | st, acc, e :: rest =>
      match e with
      | .chunk c =>
          runRound ctx active_goal_id
            { st with full_response := st.full_response ++ c
                      events := st.events ++ [.responseChunk c] }
            { acc with round_content := acc.round_content ++ c } rest
      | .toolCall name tid inp =>
          let (st1, acc1) := processToolCall ctx active_goal_id st acc name tid inp
          runRound ctx active_goal_id st1 acc1 rest
      | .complete toks model =>
          runRound ctx active_goal_id
            { st with tokens_used := st.tokens_used + toks, model_used := model }
            acc rest
      | .errorEv c err =>
          let (_mid, chat1) := insertChatMessage st.sess.chat
            { user_id := ctx.uid, role := "assistant", content := c
              meeting_id := ctx.meeting_id, model := none, tokens_used := none }
          ({ st with sess := { st.sess with chat := chat1 }
                     events := st.events ++ [.errorEv c err none] }, acc, true)

def max_tool_rounds : Nat := 5

/-- End-of-round transcript bookkeeping: the assistant tool-calls message
(`round_content or None`) followed by one tool-result message per
invocation. -/
def extendHistory (st : TurnSt) (acc : RoundAcc) : TurnSt :=
  { st with current_history :=
      st.current_history ++
        [HistEntry.assistantToolCalls
          (if acc.round_content == "" then none else some acc.round_content)
          acc.tool_calls] ++
        acc.tool_results.map (fun p => HistEntry.toolResultMsg p.1 p.2) }

/-- The `while tool_round < max_tool_rounds` loop, with structural fuel.
Fuel `max_tool_rounds - tool_round` always suffices because every iteration
raises `tool_round` by at least one (`tool_round += 1`, and the error branch
sets it to `max_tool_rounds`); `runRoundsAux_fuel_irrelevant` below makes
this precise. Also returns the final `tool_round` value and the list of
per-round accumulators, one per executed round. -/
def runRoundsAux (ctx : TurnCtx) (active_goal_id : Option GIdRef)
    (script : Nat → List StreamEvent) :
    Nat → Nat → TurnSt → TurnSt × Nat × List RoundAcc
  | 0, tool_round, st => (st, tool_round, [])
  | fuel + 1, tool_round, st =>
      if tool_round < max_tool_rounds then
        let r := tool_round + 1
        let (st1, acc, errored) := runRound ctx active_goal_id st ⟨[], [], ""⟩ (script r)
        let tr := if errored then max_tool_rounds else r
        if acc.tool_calls.isEmpty then (st1, tr, [acc])
        else
          let (st3, tr2, rds) :=
            runRoundsAux ctx active_goal_id script fuel tr (extendHistory st1 acc)
          (st3, tr2, acc :: rds)
      else (st, tool_round, [])

def runRounds (ctx : TurnCtx) (active_goal_id : Option GIdRef)
    (script : Nat → List StreamEvent) (st : TurnSt) : TurnSt × Nat × List RoundAcc :=
  runRoundsAux ctx active_goal_id script max_tool_rounds 0 st

/-- Embedding of one `message` turn (the `msg_type == "message" and content`
branch of the loop body), from the Access Gate re-check to the terminal
`response` event. Returns the outbound events of the turn in order and the
updated stores. -/
def handleMessageTurn (ctx : TurnCtx) (sess : SessionSt) (content : String)
    (active_goal_id : Option GIdRef) (script : Nat → List StreamEvent)
    (llm_error : Option String) : List OutEvent × SessionSt :=
  let access := can_access_chat ctx.uid ctx.user_phase ctx.meetings ctx.now
  if !access.can_access then
    ([.errorEv access.reason none access.next_available], sess)
  else
    let sess := { sess with user_goals := get_user_goals sess.goalsDb ctx.uid }
    let (_userMsgId, chat1) := insertChatMessage sess.chat
      { user_id := ctx.uid, role := "user", content := content
        meeting_id := ctx.meeting_id, model := none, tokens_used := none }
    let sess := { sess with chat := chat1 }
    let events0 : List OutEvent := [.typingEv]
    let history := get_conversation_history_ws sess.chat ctx.uid ctx.meeting_id
    match llm_error with
    | some e => (events0 ++ [.errorEv e none none], sess)
    | none =>
        let st0 : TurnSt :=
          { sess := sess, full_response := "", tokens_used := 0, model_used := none
            current_history := history ++ [HistEntry.plain "user" content]
            events := events0 }
        let (st1, final_round, _rounds) := runRounds ctx active_goal_id script st0
        if st1.full_response != "" || final_round > 1 then
          let respContent :=
            if st1.full_response != "" then st1.full_response else "(Goal updated)"
          let (mid, chat2) := insertChatMessage st1.sess.chat
            { user_id := ctx.uid, role := "assistant", content := respContent
              meeting_id := ctx.meeting_id, model := st1.model_used
              tokens_used := some st1.tokens_used }
          (st1.events ++ [.responseEv respContent mid st1.tokens_used],
           { st1.sess with chat := chat2 })
        else (st1.events, st1.sess)

inductive InPayload where
  | ping
  | typingIn
  | message (content : String) (active_goal_id : Option GIdRef)

structure LoopSt where
  sess : SessionSt
  scripts : List (Nat → List StreamEvent)
  llm_error : Option String

/-- Dispatch of one inbound payload (`ping` / `typing` / `message`); an
empty message content is skipped, as in `if msg_type == "message" and
content`. -/
def handlePayload (ctx : TurnCtx) (ls : LoopSt) : InPayload → List OutEvent × LoopSt
  | .ping => ([.pongEv], ls)
  | .typingIn => ([], ls)
  | .message content active_goal_id =>
      if content == "" then ([], ls)
      else
        let script := ls.scripts.headD (fun _ => [])
        let (evs, sess1) :=
          handleMessageTurn ctx ls.sess content active_goal_id script ls.llm_error
        (evs, { ls with sess := sess1, scripts := ls.scripts.tail })

/-- The main `while True` message loop over a finite list of inbound
payloads (the connection closes when the list is exhausted). -/
def runLoop (ctx : TurnCtx) : LoopSt → List InPayload → List OutEvent × LoopSt
  | ls, [] => ([], ls)
  | ls, p :: rest =>
      let (evs, ls1) := handlePayload ctx ls p
      let (evs2, ls2) := runLoop ctx ls1 rest
      (evs ++ evs2, ls2)

/-! ## Spec-side auxiliary definitions used by theorem statements -/

/-- Unsummarized `session_contexts` records of a user, in store order. -/
def unsummarized_for (db : SessionContextDb) (uid : Nat) : List SessionContext :=
  db.sessions.filter (fun s => s.user_id == uid && !s.is_summary)

/-- Summary `session_contexts` records of a user, in store order. -/
def summaries_for (db : SessionContextDb) (uid : Nat) : List SessionContext :=
  db.sessions.filter (fun s => s.user_id == uid && s.is_summary)

/-- The batch `maybe_summarize_old_sessions` consumes: the 10 oldest (by
`created_at`) unsummarized records of the user. -/
def oldest_batch (db : SessionContextDb) (uid : Nat) : List SessionContext :=
  (sortOn (fun x => x.created_at) (unsummarized_for db uid)).take SESSIONS_TO_SUMMARIZE

/-- 20 unsummarized records for user 7 (`_id`s 0-19, `created_at` 0-19),
record 0 carrying one context point; `next_id` 100. -/
def c4Db : SessionContextDb :=
  ⟨(List.range 20).map (fun i =>
    ⟨i, 7, "", (i : Int), none,
     if i = 0 then [⟨"decision", "x", none, 0⟩] else [], 2, 0, 0, 0, false, none⟩),
   100⟩

def c4Llm : Except Unit (Option (List RawContextPoint)) :=
  .ok (some [⟨some "decision", some "d"⟩])

def c4LlmExtract : Except Unit (Option ExtractPayload) :=
  .ok (some ⟨[], [⟨some "decision", some "d"⟩], none⟩)

def c4Hist : List HistoryMsg := [⟨"user", "a"⟩, ⟨"assistant", "b"⟩]

/-- The summary document produced over the batch `_id`s 0-9 of `c4Db`. -/
def c4SummaryDoc : SessionContextDoc :=
  ⟨7, "summary-u", 0, some 9, [⟨"decision", "d", none, 9⟩], 20, 0, 0, 0, true,
   some ["", "", "", "", "", "", "", "", "", ""]⟩

/-- The extraction document for the two-message history at time 50. -/
def c4ExtractDoc : SessionContextDoc :=
  ⟨7, "s", 50, some 50, [⟨"decision", "d", none, 50⟩], 2, 0, 0, 0, false, none⟩

/-! ## Helper lemmas -/

theorem alistGet_set_self {α : Type} (l : List (Nat × α)) (k : Nat) (v : α) :
    alistGet (alistSet l k v) k = some v := by
  induction l with
  | nil => simp [alistGet, alistSet]
  | cons p rest ih =>
      obtain ⟨k₀, v₀⟩ := p
      by_cases h : k₀ = k
      · simp [alistGet, alistSet, h]
      · simp [alistGet, alistSet, h, ih]

theorem alistGet_set_ne {α : Type} (l : List (Nat × α)) (k k2 : Nat) (v : α)
    (h : k ≠ k2) : alistGet (alistSet l k v) k2 = alistGet l k2 := by
  induction l with
  | nil => simp [alistGet, alistSet, h]
  | cons p rest ih =>
      obtain ⟨k₀, v₀⟩ := p
      by_cases hk : k₀ = k
      · subst hk
        simp [alistGet, alistSet, h]
      · simp only [alistSet, if_neg hk]
        by_cases hk2 : k₀ = k2
        · simp [alistGet, hk2]
        · simp [alistGet, hk2, ih]

theorem insertOn_perm {α : Type} (key : α → Int) (x : α) (l : List α) :
    (insertOn key x l).Perm (x :: l) := by
  induction l with
  | nil => simp [insertOn]
  | cons y ys ih =>
      by_cases h : key x ≤ key y
      · simp [insertOn, h]
      · simp only [insertOn, if_neg h]
        exact (ih.cons y).trans (List.Perm.swap x y ys)

theorem sortOn_perm {α : Type} (key : α → Int) (l : List α) :
    (sortOn key l).Perm l := by
  induction l with
  | nil => simp [sortOn]
  | cons x xs ih =>
      exact (insertOn_perm key x (sortOn key xs)).trans (ih.cons x)

theorem insertOn_pairwise {α : Type} (key : α → Int) (x : α) (l : List α) :
    List.Pairwise (fun a b => key a ≤ key b) l →
    List.Pairwise (fun a b => key a ≤ key b) (insertOn key x l) := by
  induction l with
  | nil => intro _; simp [insertOn]
  | cons y ys ih =>
      intro h
      rw [List.pairwise_cons] at h
      obtain ⟨hy, hys⟩ := h
      by_cases hxy : key x ≤ key y
      · simp only [insertOn, if_pos hxy]
        refine List.Pairwise.cons ?_ (List.Pairwise.cons hy hys)
        intro b hb
        cases hb with
        | head => exact hxy
        | tail _ hb => exact le_trans hxy (hy _ hb)
      · simp only [insertOn, if_neg hxy]
        refine List.Pairwise.cons ?_ (ih hys)
        intro b hb
        have hb2 : b = x ∨ b ∈ ys := by
          have := (insertOn_perm key x ys).mem_iff.mp hb
          simpa using this
        cases hb2 with
        | inl he => subst he; omega
        | inr hm => exact hy _ hm

theorem sortOn_pairwise {α : Type} (key : α → Int) (l : List α) :
    List.Pairwise (fun a b => key a ≤ key b) (sortOn key l) := by
  induction l with
  | nil => simp [sortOn]
  | cons x xs ih => exact insertOn_pairwise key x (sortOn key xs) ih

theorem findMinScheduledAt_aux (ms : List Meeting) (b : Meeting) :
    ∃ m, (m = b ∨ m ∈ ms) ∧
      ms.foldl (fun acc m =>
        match acc with
        | none => some m
        | some c => if m.scheduled_at < c.scheduled_at then some m else some c)
        (some b) = some m ∧
      m.scheduled_at ≤ b.scheduled_at ∧ ∀ m2 ∈ ms, m.scheduled_at ≤ m2.scheduled_at := by
  induction ms generalizing b with
  | nil => exact ⟨b, Or.inl rfl, rfl, le_refl _, by simp⟩
  | cons m' rest ih =>
      by_cases h : m'.scheduled_at < b.scheduled_at
      · obtain ⟨m, hm, hfold, hle, hall⟩ := ih m'
        refine ⟨m, ?_, ?_, ?_, ?_⟩
        · rcases hm with he | hmem
          · exact Or.inr (by simp [he])
          · exact Or.inr (List.mem_cons_of_mem _ hmem)
        · simpa [List.foldl_cons, if_pos h] using hfold
        · omega
        · intro m2 hm2
          rcases List.mem_cons.mp hm2 with he | hmem
          · subst he; exact hle
          · exact hall _ hmem
      · obtain ⟨m, hm, hfold, hle, hall⟩ := ih b
        refine ⟨m, ?_, ?_, hle, ?_⟩
        · rcases hm with he | hmem
          · exact Or.inl he
          · exact Or.inr (List.mem_cons_of_mem _ hmem)
        · simpa [List.foldl_cons, if_neg h] using hfold
        · intro m2 hm2
          rcases List.mem_cons.mp hm2 with he | hmem
          · subst he; omega
          · exact hall _ hmem

theorem findMinScheduledAt_spec (ms : List Meeting) (hne : ms ≠ []) :
    ∃ m ∈ ms, findMinScheduledAt ms = some m ∧
      ∀ m2 ∈ ms, m.scheduled_at ≤ m2.scheduled_at := by
  match ms, hne with
  | m0 :: rest, _ =>
      obtain ⟨m, hm, hfold, hle, hall⟩ := findMinScheduledAt_aux rest m0
      refine ⟨m, ?_, ?_, ?_⟩
      · rcases hm with he | hmem
        · simp [he]
        · exact List.mem_cons_of_mem _ hmem
      · simpa [findMinScheduledAt, List.foldl_cons] using hfold
      · intro m2 hm2
        rcases List.mem_cons.mp hm2 with he | hmem
        · subst he; exact hle
        · exact hall _ hmem

theorem trackingDenied_next_available (uid : Nat) (phase : String)
    (meetings : List Meeting) (now : Int) :
    (meetings.filter (nextScheduledQuery uid now) = [] →
      (trackingDeniedResult uid phase meetings now).next_available = none) ∧
    (meetings.filter (nextScheduledQuery uid now) ≠ [] →
      ∃ m ∈ meetings.filter (nextScheduledQuery uid now),
        (trackingDeniedResult uid phase meetings now).next_available =
          some (m.scheduled_at - MEETING_WINDOW_BEFORE_MINUTES) ∧
        ∀ m2 ∈ meetings.filter (nextScheduledQuery uid now),
          m.scheduled_at ≤ m2.scheduled_at) := by
  constructor
  · intro h
    simp [trackingDeniedResult, h, findMinScheduledAt]
  · intro h
    obtain ⟨m, hmem, hfold, hall⟩ := findMinScheduledAt_spec _ h
    exact ⟨m, hmem, by simp [trackingDeniedResult, hfold], hall⟩

/-- C1 (amended). For a tracking-phase user the Access Gate grants access,
with that meeting's id, exactly when the first stored meeting with status
scheduled/active and `scheduled_at` within `[now - W_before, now + 2h]` has
its window `[scheduled_at - W_before, scheduled_at + duration + W_after]`
containing now; otherwise it denies access with `next_available` equal to the
earliest future scheduled meeting's `scheduled_at` minus the before-window
constant (and no `next_available` when no future meeting is scheduled). The
original claim's stronger precondition (some meeting whose window contains
now exists) fails on the code: the query's lower bound `now - W_before`
excludes meetings whose window still contains now, see `c1_counterexample`. -/
theorem c1_access_gate_amended (uid : Nat) (meetings : List Meeting) (now : Int) :
    ((can_access_chat uid "tracking" meetings now).can_access = true ↔
      ∃ m, meetings.find? (meetingWindowQuery uid now) = some m ∧
        meetingWindowContains m now) ∧
    (∀ m, meetings.find? (meetingWindowQuery uid now) = some m →
      meetingWindowContains m now →
      (can_access_chat uid "tracking" meetings now).meeting_id = some m.mid) ∧
    ((can_access_chat uid "tracking" meetings now).can_access = false →
      ((meetings.filter (nextScheduledQuery uid now) = [] →
        (can_access_chat uid "tracking" meetings now).next_available = none) ∧
       (meetings.filter (nextScheduledQuery uid now) ≠ [] →
        ∃ m ∈ meetings.filter (nextScheduledQuery uid now),
          (can_access_chat uid "tracking" meetings now).next_available =
            some (m.scheduled_at - MEETING_WINDOW_BEFORE_MINUTES) ∧
          ∀ m2 ∈ meetings.filter (nextScheduledQuery uid now),
            m.scheduled_at ≤ m2.scheduled_at))) := by
  have hden := trackingDenied_next_available uid "tracking" meetings now
  cases hfind : meetings.find? (meetingWindowQuery uid now) with
  | none =>
      have hres : can_access_chat uid "tracking" meetings now =
          trackingDeniedResult uid "tracking" meetings now := by
        unfold can_access_chat
        rw [hfind]
        rfl
      refine ⟨?_, ?_, ?_⟩
      · rw [hres]
        simp only [trackingDeniedResult]
        constructor
        · intro h; simp at h
        · rintro ⟨m2, hm2, _⟩
          simp at hm2
      · intro m2 hm2 _
        simp at hm2
      · intro _
        rw [hres]
        exact hden
  | some m =>
      have hstep : can_access_chat uid "tracking" meetings now =
          if m.scheduled_at - MEETING_WINDOW_BEFORE_MINUTES ≤ now ∧
              now ≤ m.scheduled_at +
                (m.duration_minutes.getD DEFAULT_MEETING_DURATION_MINUTES +
                  MEETING_WINDOW_AFTER_MINUTES) then
            { can_access := true, reason := "Active meeting window"
              user_phase := "tracking", next_available := none
              meeting_id := some m.mid }
          else trackingDeniedResult uid "tracking" meetings now := by
        unfold can_access_chat
        rw [hfind]
        rfl
      by_cases hw : meetingWindowContains m now
      · have hw2 := hw
        unfold meetingWindowContains at hw2
        rw [if_pos hw2] at hstep
        refine ⟨?_, ?_, ?_⟩
        · rw [hstep]
          constructor
          · intro _; exact ⟨m, rfl, hw⟩
          · intro _; rfl
        · intro m2 hm2 _
          have he : m = m2 := Option.some.inj hm2
          subst he
          rw [hstep]
        · intro hfalse
          rw [hstep] at hfalse
          simp at hfalse
      · have hw2 := hw
        unfold meetingWindowContains at hw2
        rw [if_neg hw2] at hstep
        refine ⟨?_, ?_, ?_⟩
        · rw [hstep]
          simp only [trackingDeniedResult]
          constructor
          · intro h; simp at h
          · rintro ⟨m2, hm2, hc2⟩
            have he : m = m2 := Option.some.inj hm2
            subst he
            exact absurd hc2 hw
        · intro m2 hm2 hc2
          have he : m = m2 := Option.some.inj hm2
          subst he
          exact absurd hc2 hw
        · intro _
          rw [hstep]
          exact hden


/-- Counterexample to C1 as stated: a meeting scheduled 40 minutes ago with
a 30-minute duration has window `[now - 70, now + 50]`, which contains now,
yet the gate denies access because the query only considers meetings with
`scheduled_at` at or after `now - 30`. -/
theorem c1_counterexample :
    meetingWindowContains ⟨0, 0, "scheduled", 60, some 30⟩ 100 ∧
    (⟨0, 0, "scheduled", 60, some 30⟩ : Meeting) ∈
      ([⟨0, 0, "scheduled", 60, some 30⟩] : List Meeting) ∧
    (can_access_chat 0 "tracking" [⟨0, 0, "scheduled", 60, some 30⟩] 100).can_access
      = false := by
  refine ⟨?_, ?_, ?_⟩ <;> decide

/-- Witness for `c1_access_gate_amended` at concrete inputs: an in-window
meeting is granted with its id, and a future out-of-window meeting yields a
denial with `next_available` 30 minutes before it. -/
theorem c1_witness :
    (can_access_chat 0 "tracking" [⟨2, 0, "active", 110, some 30⟩] 100).meeting_id
      = some 2 ∧
    (∃ m ∈ ([⟨1, 0, "scheduled", 200, none⟩] : List Meeting).filter
        (nextScheduledQuery 0 100),
      (can_access_chat 0 "tracking" [⟨1, 0, "scheduled", 200, none⟩] 100).next_available
        = some (m.scheduled_at - MEETING_WINDOW_BEFORE_MINUTES) ∧
      ∀ m2 ∈ ([⟨1, 0, "scheduled", 200, none⟩] : List Meeting).filter
          (nextScheduledQuery 0 100),
        m.scheduled_at ≤ m2.scheduled_at) :=
  ⟨(c1_access_gate_amended 0 [⟨2, 0, "active", 110, some 30⟩] 100).2.1
      ⟨2, 0, "active", 110, some 30⟩ (by decide) (by decide),
   ((c1_access_gate_amended 0 [⟨1, 0, "scheduled", 200, none⟩] 100).2.2
      (by decide)).2 (by decide)⟩

/-! ## Tool round loop lemmas -/

theorem runRoundsAux_succ (ctx : TurnCtx) (active : Option GIdRef)
    (script : Nat → List StreamEvent) (f tool_round : Nat) (st : TurnSt) :
    runRoundsAux ctx active script (f + 1) tool_round st =
      if tool_round < max_tool_rounds then
        let p := runRound ctx active st ⟨[], [], ""⟩ (script (tool_round + 1))
        let tr := if p.2.2 then max_tool_rounds else tool_round + 1
        if p.2.1.tool_calls.isEmpty then (p.1, tr, [p.2.1])
        else
          let q := runRoundsAux ctx active script f tr (extendHistory p.1 p.2.1)
          (q.1, q.2.1, p.2.1 :: q.2.2)
      else (st, tool_round, []) := by
  simp only [runRoundsAux]

theorem runRoundsAux_length (ctx : TurnCtx) (active : Option GIdRef)
    (script : Nat → List StreamEvent) :
    ∀ fuel tool_round st,
      (runRoundsAux ctx active script fuel tool_round st).2.2.length ≤ fuel := by
  intro fuel
  induction fuel with
  | zero => intro tool_round st; simp [runRoundsAux]
  | succ f ih =>
      intro tool_round st
      rw [runRoundsAux_succ]
      by_cases hc : tool_round < max_tool_rounds
      · rw [if_pos hc]
        rcases hp : runRound ctx active st ⟨[], [], ""⟩ (script (tool_round + 1)) with
          ⟨st1, acc, errored⟩
        dsimp only
        by_cases he : acc.tool_calls.isEmpty
        · rw [if_pos he]
          simp
        · rw [if_neg he]
          dsimp only
          simp only [List.length_cons]
          have h3 := ih (if errored then max_tool_rounds else tool_round + 1)
            (extendHistory st1 acc)
          omega
      · rw [if_neg hc]
        simp

theorem roundAccs_last_of_cons {l : List RoundAcc} {acc : RoundAcc}
    (he : ¬acc.tool_calls.isEmpty = true)
    (ihq : ∀ j (hj : j < l.length), (l.get ⟨j, hj⟩).tool_calls = [] → j + 1 = l.length) :
    ∀ i (h : i < (acc :: l).length),
      ((acc :: l).get ⟨i, h⟩).tool_calls = [] → i + 1 = (acc :: l).length := by
  intro i h hempty
  cases i with
  | zero =>
      have h0 : acc.tool_calls = [] := hempty
      exact absurd (by simp [h0]) he
  | succ j =>
      have hj : j < l.length := Nat.lt_of_succ_lt_succ h
      have h4 := ihq j hj hempty
      simp only [List.length_cons]
      omega

theorem runRoundsAux_no_toolcall_last (ctx : TurnCtx) (active : Option GIdRef)
    (script : Nat → List StreamEvent) :
    ∀ fuel tool_round st i
      (h : i < (runRoundsAux ctx active script fuel tool_round st).2.2.length),
      ((runRoundsAux ctx active script fuel tool_round st).2.2.get ⟨i, h⟩).tool_calls = [] →
      i + 1 = (runRoundsAux ctx active script fuel tool_round st).2.2.length := by
  intro fuel
  induction fuel with
  | zero => intro tool_round st i h; simp [runRoundsAux] at h
  | succ f ih =>
      intro tool_round st
      rw [runRoundsAux_succ]
      by_cases hc : tool_round < max_tool_rounds
      · rw [if_pos hc]
        rcases hp : runRound ctx active st ⟨[], [], ""⟩ (script (tool_round + 1)) with
          ⟨st1, acc, errored⟩
        dsimp only
        by_cases he : acc.tool_calls.isEmpty
        · rw [if_pos he]
          intro i h _
          simp only [List.length_singleton] at h ⊢
          omega
        · rw [if_neg he]
          dsimp only
          exact roundAccs_last_of_cons he (fun j hj hq => ih _ _ j hj hq)
      · rw [if_neg hc]
        intro i h
        simp at h

theorem runRoundsAux_fuel_irrelevant (ctx : TurnCtx) (active : Option GIdRef)
    (script : Nat → List StreamEvent) :
    ∀ f1 f2 tool_round st, max_tool_rounds - tool_round ≤ f1 →
      max_tool_rounds - tool_round ≤ f2 →
      runRoundsAux ctx active script f1 tool_round st =
        runRoundsAux ctx active script f2 tool_round st := by
  intro f1
  induction f1 with
  | zero =>
      intro f2 tool_round st h1 h2
      have hc : ¬tool_round < max_tool_rounds := by omega
      cases f2 with
      | zero => rfl
      | succ g =>
          rw [runRoundsAux_succ, if_neg hc]
          rfl
  | succ f ih =>
      intro f2 tool_round st h1 h2
      cases f2 with
      | zero =>
          have hc : ¬tool_round < max_tool_rounds := by omega
          rw [runRoundsAux_succ, if_neg hc]
          rfl
      | succ g =>
          rw [runRoundsAux_succ, runRoundsAux_succ]
          by_cases hc : tool_round < max_tool_rounds
          · rw [if_pos hc, if_pos hc]
            rcases hp : runRound ctx active st ⟨[], [], ""⟩ (script (tool_round + 1)) with
              ⟨st1, acc, errored⟩
            dsimp only
            by_cases he : acc.tool_calls.isEmpty
            · rw [if_pos he, if_pos he]
            · rw [if_neg he, if_neg he]
              have htr1 : max_tool_rounds -
                  (if errored then max_tool_rounds else tool_round + 1) ≤ f := by
                cases errored
                · rw [if_neg Bool.false_ne_true]
                  omega
                · rw [if_pos rfl]
                  omega
              have htr2 : max_tool_rounds -
                  (if errored then max_tool_rounds else tool_round + 1) ≤ g := by
                cases errored
                · rw [if_neg Bool.false_ne_true]
                  omega
                · rw [if_pos rfl]
                  omega
              rw [ih g (if errored then max_tool_rounds else tool_round + 1)
                (extendHistory st1 acc) htr1 htr2]
          · rw [if_neg hc, if_neg hc]

/-- C2. The claim says a provider `error` event aborts the whole turn with a
terminal `error` event and no further events or assistant messages. The code
violates this: the error branch sets `tool_round = max_tool_rounds` to exit
the loop, which makes the post-loop condition `full_response or tool_round >
1` true, so after persisting the error text and emitting the `error` event
the turn ALSO persists a second assistant message (the placeholder `"(Goal
updated)"` when no text was streamed) and emits a terminal `response` event.
This theorem evaluates the embedded turn at the failing input: a provider
whose round-1 stream is a single `error` event. -/
theorem c2_error_event_followed_by_response :
    (handleMessageTurn ⟨0, "goal_setting", [], none, 0⟩ ⟨⟨[], 0⟩, ⟨[]⟩, []⟩ "hi" none
        (fun _ => [StreamEvent.errorEv "LLM provider failed" (some "boom")]) none).1 =
      [OutEvent.typingEv,
       OutEvent.errorEv "LLM provider failed" (some "boom") none,
       OutEvent.responseEv "(Goal updated)" 2 0] ∧
    ((handleMessageTurn ⟨0, "goal_setting", [], none, 0⟩ ⟨⟨[], 0⟩, ⟨[]⟩, []⟩ "hi" none
        (fun _ => [StreamEvent.errorEv "LLM provider failed" (some "boom")]) none).2.chat.messages.map
      (fun m => (m.role, m.content))) =
      [("user", "hi"), ("assistant", "LLM provider failed"),
       ("assistant", "(Goal updated)")] := by
  constructor <;> rfl

/-- C5. For every provider script (including a pathological one emitting a
tool call in every round) and every starting state, the tool-call round loop
executes at most `max_tool_rounds = 5` rounds (it terminates by construction,
being a total function), and any executed round in which no tool calls
occurred is the last round of the turn. -/
theorem c5_tool_round_loop_bounded (ctx : TurnCtx) (active : Option GIdRef)
    (script : Nat → List StreamEvent) (st : TurnSt) :
    (runRounds ctx active script st).2.2.length ≤ max_tool_rounds ∧
    ∀ i (h : i < (runRounds ctx active script st).2.2.length),
      ((runRounds ctx active script st).2.2.get ⟨i, h⟩).tool_calls = [] →
      i + 1 = (runRounds ctx active script st).2.2.length :=
  ⟨runRoundsAux_length ctx active script max_tool_rounds 0 st,
   fun i h hq =>
     runRoundsAux_no_toolcall_last ctx active script max_tool_rounds 0 st i h hq⟩

/-- Witness for `c5_tool_round_loop_bounded`: a provider that streams no
events runs exactly one round, and that round (with no tool calls) is the
last. -/
theorem c5_witness :
    (runRounds ⟨0, "goal_setting", [], none, 0⟩ none (fun _ => [])
        ⟨⟨⟨[], 0⟩, ⟨[]⟩, []⟩, "", 0, none, [], []⟩).2.2.length ≤ max_tool_rounds ∧
    0 + 1 = (runRounds ⟨0, "goal_setting", [], none, 0⟩ none (fun _ => [])
        ⟨⟨⟨[], 0⟩, ⟨[]⟩, []⟩, "", 0, none, [], []⟩).2.2.length :=
  ⟨(c5_tool_round_loop_bounded ⟨0, "goal_setting", [], none, 0⟩ none (fun _ => [])
      ⟨⟨⟨[], 0⟩, ⟨[]⟩, []⟩, "", 0, none, [], []⟩).1,
   (c5_tool_round_loop_bounded ⟨0, "goal_setting", [], none, 0⟩ none (fun _ => [])
      ⟨⟨⟨[], 0⟩, ⟨[]⟩, []⟩, "", 0, none, [], []⟩).2 0 (by decide) (by decide)⟩

/-- C8. When the re-checked Access Gate denies a `message` turn, the turn
emits exactly one `error` event carrying the gate's reason and
`next_available`, persists nothing (the stores and cached goals are returned
unchanged), and the loop goes on to process the remaining inbound payloads. -/
theorem c8_gate_denied_turn (ctx : TurnCtx) (ls : LoopSt) (content : String)
    (active : Option GIdRef) (rest : List InPayload)
    (h1 : (can_access_chat ctx.uid ctx.user_phase ctx.meetings ctx.now).can_access = false)
    (h2 : content ≠ "") :
    handleMessageTurn ctx ls.sess content active (ls.scripts.headD (fun _ => []))
        ls.llm_error =
      ([OutEvent.errorEv (can_access_chat ctx.uid ctx.user_phase ctx.meetings ctx.now).reason
          none (can_access_chat ctx.uid ctx.user_phase ctx.meetings ctx.now).next_available],
       ls.sess) ∧
    runLoop ctx ls (InPayload.message content active :: rest) =
      (OutEvent.errorEv (can_access_chat ctx.uid ctx.user_phase ctx.meetings ctx.now).reason
          none (can_access_chat ctx.uid ctx.user_phase ctx.meetings ctx.now).next_available ::
        (runLoop ctx { ls with scripts := ls.scripts.tail } rest).1,
       (runLoop ctx { ls with scripts := ls.scripts.tail } rest).2) := by
  have h2b : (content == "") = false := by
    simp [h2]
  have hturn : handleMessageTurn ctx ls.sess content active
      (ls.scripts.headD (fun _ => [])) ls.llm_error =
      ([OutEvent.errorEv (can_access_chat ctx.uid ctx.user_phase ctx.meetings ctx.now).reason
          none (can_access_chat ctx.uid ctx.user_phase ctx.meetings ctx.now).next_available],
       ls.sess) := by
    simp [handleMessageTurn, h1]
  refine ⟨hturn, ?_⟩
  simp only [runLoop, handlePayload, h2b, Bool.false_eq_true, if_false, hturn,
    List.singleton_append]


/-- Witness for `c8_gate_denied_turn`: a tracking-phase user with no
meetings sends a message followed by a ping; the turn yields only the gate
error and the ping is still processed. -/
theorem c8_witness :
    runLoop ⟨0, "tracking", [], none, 0⟩ ⟨⟨⟨[], 0⟩, ⟨[]⟩, []⟩, [], none⟩
        (InPayload.message "hi" none :: [InPayload.ping]) =
      (OutEvent.errorEv (can_access_chat 0 "tracking" [] 0).reason none
          (can_access_chat 0 "tracking" [] 0).next_available ::
        (runLoop ⟨0, "tracking", [], none, 0⟩ ⟨⟨⟨[], 0⟩, ⟨[]⟩, []⟩, [], none⟩
          [InPayload.ping]).1,
       (runLoop ⟨0, "tracking", [], none, 0⟩ ⟨⟨⟨[], 0⟩, ⟨[]⟩, []⟩, [], none⟩
          [InPayload.ping]).2) :=
  (c8_gate_denied_turn ⟨0, "tracking", [], none, 0⟩ ⟨⟨⟨[], 0⟩, ⟨[]⟩, []⟩, [], none⟩
    "hi" none [InPayload.ping] (by decide) (by decide)).2

/-- C9. When the provider emits a `create_goal` tool call, the orchestrator
first inserts a minimal goal record carrying only the title (empty content)
to obtain the fresh id, then emits `focus_goal` with that id strictly before
the `tool_call` event carrying the (successful) tool result, and the goals
store is updated by applying `update_goal` with the populate input to the
store holding the minimal record — the same path as the `update_goal` tool.
Minimal creation always succeeds in the pure model, so the claim's success
precondition is automatic; `hwf` says stored ids are below the id counter. -/
theorem c9_create_goal_two_step (ctx : TurnCtx) (active : Option GIdRef) (st : TurnSt) (acc : RoundAcc)
    (tid : Nat) (inp : ToolInput)
    (hwf : ∀ g ∈ st.sess.goalsDb.goals, g.gid < st.sess.goalsDb.next_id) :
    ∃ res : ToolResult,
      (processToolCall ctx active st acc "create_goal" tid inp).1.events =
        st.events ++ [OutEvent.focusGoal (GIdRef.objId st.sess.goalsDb.next_id),
                      OutEvent.toolCallEv "create_goal" res] ∧
      res.success = true ∧ res.goal_id = some st.sess.goalsDb.next_id ∧
      (processToolCall ctx active st acc "create_goal" tid inp).1.sess.goalsDb =
        (update_goal
          ⟨st.sess.goalsDb.goals ++
             [create_goal_document ctx.uid (inp.title.getD "New Goal") "" "draft"
                (inp.template_type.getD "custom") ctx.now st.sess.goalsDb.next_id],
           st.sess.goalsDb.next_id + 1⟩
          ctx.uid (populate_input inp st.sess.goalsDb.next_id)
          (some (GIdRef.objId st.sess.goalsDb.next_id)) ctx.now).2 ∧
      (processToolCall ctx active st acc "create_goal" tid inp).2 =
        { acc with
          tool_calls := acc.tool_calls ++
            [{ id := tid, name := "create_goal", arguments := inp }]
          tool_results := acc.tool_results ++ [(tid, res)] } := by
  set gid := st.sess.goalsDb.next_id with hgid
  set minimalGoal := create_goal_document ctx.uid (inp.title.getD "New Goal") "" "draft"
    (inp.template_type.getD "custom") ctx.now gid with hmg
  set db1 : GoalsDb := ⟨st.sess.goalsDb.goals ++ [minimalGoal], gid + 1⟩ with hdb1
  have hfind : db1.goals.find? (fun g => g.gid == gid && g.user_id == ctx.uid) =
      some minimalGoal := by
    rw [hdb1]
    rw [List.find?_append]
    have h1 : st.sess.goalsDb.goals.find? (fun g => g.gid == gid && g.user_id == ctx.uid)
        = none := by
      rw [List.find?_eq_none]
      intro g hg
      have := hwf g hg
      simp only [Bool.and_eq_true, beq_iff_eq]
      rintro ⟨hgg, -⟩
      omega
    rw [h1]
    simp [hmg, create_goal_document]
  have hupd : update_goal db1 ctx.uid (populate_input inp gid)
      (some (GIdRef.objId gid)) ctx.now =
      (⟨true, some gid,
        ({ db1 with goals := db1.goals.map (fun g =>
           if g.gid == gid then applyUpdateFields (populate_input inp gid) ctx.now g
           else g) } : GoalsDb).goals.find? (fun g => g.gid == gid), none⟩,
       { db1 with goals := db1.goals.map (fun g =>
           if g.gid == gid then applyUpdateFields (populate_input inp gid) ctx.now g
           else g) }) := by
    unfold update_goal
    simp only [populate_input, Option.getD_some]
    rw [if_neg (by simp)]
    simp only [hfind]
  have hmin : create_goal_minimal st.sess.goalsDb ctx.uid inp ctx.now =
      (⟨true, some gid, none, none⟩, db1) := rfl
  have hs1 : (("create_goal" : String) == "update_goal") = false := rfl
  have hs2 : (("create_goal" : String) == "set_goal_phase") = false := rfl
  have hs3 : (("create_goal" : String) == "create_goal") = true := rfl
  have hkey : processToolCall ctx active st acc "create_goal" tid inp =
      ({ st with
          events := st.events ++ [OutEvent.focusGoal (GIdRef.objId gid),
            OutEvent.toolCallEv "create_goal"
              ⟨true, some gid,
                ({ db1 with goals := db1.goals.map (fun g =>
                   if g.gid == gid then applyUpdateFields (populate_input inp gid) ctx.now g
                   else g) } : GoalsDb).goals.find? (fun g => g.gid == gid), none⟩]
          sess := { st.sess with
            goalsDb := { db1 with goals := db1.goals.map (fun g =>
              if g.gid == gid then applyUpdateFields (populate_input inp gid) ctx.now g
              else g) }
            user_goals := get_user_goals
              ({ db1 with goals := db1.goals.map (fun g =>
                if g.gid == gid then applyUpdateFields (populate_input inp gid) ctx.now g
                else g) } : GoalsDb) ctx.uid } },
       { acc with
          tool_calls := acc.tool_calls ++
            [{ id := tid, name := "create_goal", arguments := inp }]
          tool_results := acc.tool_results ++
            [(tid, ⟨true, some gid,
              ({ db1 with goals := db1.goals.map (fun g =>
                 if g.gid == gid then applyUpdateFields (populate_input inp gid) ctx.now g
                 else g) } : GoalsDb).goals.find? (fun g => g.gid == gid), none⟩)] }) := by
    simp only [processToolCall, hs1, hs2, hs3, Bool.or_self, if_false, if_true,
      Bool.false_eq_true, hmin, hupd]
    simp only [List.append_assoc]
    rfl
  refine ⟨⟨true, some gid,
    ({ db1 with goals := db1.goals.map (fun g =>
       if g.gid == gid then applyUpdateFields (populate_input inp gid) ctx.now g
       else g) } : GoalsDb).goals.find? (fun g => g.gid == gid), none⟩,
    ?_, rfl, rfl, ?_, ?_⟩
  · rw [hkey]
  · rw [hkey, hupd]
  · rw [hkey]


/-- Witness for `c9_create_goal_two_step`: a `create_goal` tool call with a
marathon title against an empty goals store. -/
theorem c9_witness :
    ∃ res : ToolResult,
      (processToolCall ⟨0, "goal_setting", [], none, 0⟩ none
          ⟨⟨⟨[], 0⟩, ⟨[]⟩, []⟩, "", 0, none, [], []⟩ ⟨[], [], ""⟩ "create_goal" 1
          ⟨some "run marathon", some "plan", none, some "2026-06-01", none,
           some ["fitness"], none, none, none, none⟩).1.events =
        ([] : List OutEvent) ++ [OutEvent.focusGoal (GIdRef.objId 0),
          OutEvent.toolCallEv "create_goal" res] ∧
      res.success = true ∧ res.goal_id = some 0 ∧
      (processToolCall ⟨0, "goal_setting", [], none, 0⟩ none
          ⟨⟨⟨[], 0⟩, ⟨[]⟩, []⟩, "", 0, none, [], []⟩ ⟨[], [], ""⟩ "create_goal" 1
          ⟨some "run marathon", some "plan", none, some "2026-06-01", none,
           some ["fitness"], none, none, none, none⟩).1.sess.goalsDb =
        (update_goal
          ⟨[] ++ [create_goal_document 0 "run marathon" "" "draft" "custom" 0 0], 1⟩
          0 (populate_input ⟨some "run marathon", some "plan", none, some "2026-06-01",
              none, some ["fitness"], none, none, none, none⟩ 0)
          (some (GIdRef.objId 0)) 0).2 ∧
      (processToolCall ⟨0, "goal_setting", [], none, 0⟩ none
          ⟨⟨⟨[], 0⟩, ⟨[]⟩, []⟩, "", 0, none, [], []⟩ ⟨[], [], ""⟩ "create_goal" 1
          ⟨some "run marathon", some "plan", none, some "2026-06-01", none,
           some ["fitness"], none, none, none, none⟩).2 =
        ⟨[⟨1, "create_goal", ⟨some "run marathon", some "plan", none, some "2026-06-01",
            none, some ["fitness"], none, none, none, none⟩⟩],
         [(1, res)], ""⟩ :=
  c9_create_goal_two_step ⟨0, "goal_setting", [], none, 0⟩ none
    ⟨⟨⟨[], 0⟩, ⟨[]⟩, []⟩, "", 0, none, [], []⟩ ⟨[], [], ""⟩ 1
    ⟨some "run marathon", some "plan", none, some "2026-06-01", none,
     some ["fitness"], none, none, none, none⟩ (by simp)

/-! ## Connection registry lemmas: the five execution paths of `connect` -/

theorem connect_user_rate_reject (s : ConnectionManagerState) (ws uid : Nat)
    (phase : String) (sid cip : Option Nat) (now : Int) (acceptOk : Bool)
    (h : MAX_CONNECTION_ATTEMPTS_PER_MINUTE ≤
      (clean_old_attempts now ((alistGet s.connection_attempts uid).getD [])).length) :
    connect s ws uid phase sid cip now acceptOk =
      (false,
       { s with
          connection_attempts :=
            alistSet s.connection_attempts uid
              (clean_old_attempts now
                ((alistGet s.connection_attempts uid).getD [])) }) := by
  have h2 : ¬(clean_old_attempts now ((alistGet s.connection_attempts uid).getD [])).length <
      MAX_CONNECTION_ATTEMPTS_PER_MINUTE := Nat.not_lt.mpr h
  simp [connect, check_rate_limit, h2]

theorem connect_ip_rate_reject (s : ConnectionManagerState) (ws uid : Nat)
    (phase : String) (sid : Option Nat) (ip : Nat) (now : Int) (acceptOk : Bool)
    (hu : (clean_old_attempts now ((alistGet s.connection_attempts uid).getD [])).length <
      MAX_CONNECTION_ATTEMPTS_PER_MINUTE)
    (h : MAX_CONNECTION_ATTEMPTS_PER_MINUTE ≤
      (clean_old_attempts now ((alistGet s.ip_connection_attempts ip).getD [])).length) :
    connect s ws uid phase sid (some ip) now acceptOk =
      (false,
       { s with
          connection_attempts :=
            alistSet s.connection_attempts uid
              (clean_old_attempts now
                ((alistGet s.connection_attempts uid).getD [])),
          ip_connection_attempts :=
            alistSet s.ip_connection_attempts ip
              (clean_old_attempts now
                ((alistGet s.ip_connection_attempts ip).getD [])) }) := by
  have h2 : ¬(clean_old_attempts now ((alistGet s.ip_connection_attempts ip).getD [])).length <
      MAX_CONNECTION_ATTEMPTS_PER_MINUTE := Nat.not_lt.mpr h
  simp [connect, check_rate_limit, hu, h2]

theorem connect_count_reject (s : ConnectionManagerState) (ws uid : Nat)
    (phase : String) (sid cip : Option Nat) (now : Int) (acceptOk : Bool)
    (hu : (clean_old_attempts now ((alistGet s.connection_attempts uid).getD [])).length <
      MAX_CONNECTION_ATTEMPTS_PER_MINUTE)
    (hip : ∀ ip, cip = some ip →
      (clean_old_attempts now ((alistGet s.ip_connection_attempts ip).getD [])).length <
        MAX_CONNECTION_ATTEMPTS_PER_MINUTE)
    (hc : MAX_CONNECTIONS_PER_USER ≤ get_user_connection_count s uid) :
    connect s ws uid phase sid cip now acceptOk =
      (false, pruneAttempts s uid cip now) := by
  have hc2 : MAX_CONNECTIONS_PER_USER ≤
      ((alistGet s.active_connections uid).getD []).length := hc
  cases cip with
  | none => simp [connect, check_rate_limit, pruneAttempts, hu, get_user_connection_count, hc2]
  | some ip =>
      simp [connect, check_rate_limit, pruneAttempts, hu, hip ip rfl,
        get_user_connection_count, hc2]

theorem connect_accept_fail (s : ConnectionManagerState) (ws uid : Nat)
    (phase : String) (sid cip : Option Nat) (now : Int)
    (hu : (clean_old_attempts now ((alistGet s.connection_attempts uid).getD [])).length <
      MAX_CONNECTION_ATTEMPTS_PER_MINUTE)
    (hip : ∀ ip, cip = some ip →
      (clean_old_attempts now ((alistGet s.ip_connection_attempts ip).getD [])).length <
        MAX_CONNECTION_ATTEMPTS_PER_MINUTE)
    (hc : get_user_connection_count s uid < MAX_CONNECTIONS_PER_USER) :
    connect s ws uid phase sid cip now false =
      (false, recordAttempts (pruneAttempts s uid cip now) uid cip now) := by
  have hc2 : ((alistGet s.active_connections uid).getD []).length <
      MAX_CONNECTIONS_PER_USER := hc
  cases cip with
  | none =>
      simp [connect, check_rate_limit, pruneAttempts, recordAttempts, record_attempt,
        hu, get_user_connection_count, Nat.not_le.mpr hc2, alistGet_set_self]
  | some ip =>
      simp [connect, check_rate_limit, pruneAttempts, recordAttempts, record_attempt,
        hu, hip ip rfl, get_user_connection_count, Nat.not_le.mpr hc2, alistGet_set_self]

theorem connect_success (s : ConnectionManagerState) (ws uid : Nat)
    (phase : String) (sid cip : Option Nat) (now : Int)
    (hu : (clean_old_attempts now ((alistGet s.connection_attempts uid).getD [])).length <
      MAX_CONNECTION_ATTEMPTS_PER_MINUTE)
    (hip : ∀ ip, cip = some ip →
      (clean_old_attempts now ((alistGet s.ip_connection_attempts ip).getD [])).length <
        MAX_CONNECTION_ATTEMPTS_PER_MINUTE)
    (hc : get_user_connection_count s uid < MAX_CONNECTIONS_PER_USER) :
    connect s ws uid phase sid cip now true =
      (true,
       { recordAttempts (pruneAttempts s uid cip now) uid cip now with
          active_connections :=
            alistSet s.active_connections uid
              (let conns := (alistGet s.active_connections uid).getD []
               if conns.contains ws then conns else conns ++ [ws]),
          connection_info :=
            alistSet s.connection_info ws
              { user_id := uid, user_phase := phase, session_id := sid
                client_ip := cip, connected_at := now, message_count := 0 } }) := by
  have hc2 : ((alistGet s.active_connections uid).getD []).length <
      MAX_CONNECTIONS_PER_USER := hc
  cases cip with
  | none =>
      simp [connect, check_rate_limit, pruneAttempts, recordAttempts, record_attempt,
        hu, get_user_connection_count, Nat.not_le.mpr hc2, alistGet_set_self]
  | some ip =>
      simp [connect, check_rate_limit, pruneAttempts, recordAttempts, record_attempt,
        hu, hip ip rfl, get_user_connection_count, Nat.not_le.mpr hc2, alistGet_set_self]


theorem alistGet_set_getD_sublist {l : List (Nat × List Int)} {k : Nat} {v : List Int}
    (hsub : v.Sublist ((alistGet l k).getD [])) (k2 : Nat) :
    ((alistGet (alistSet l k v) k2).getD []).Sublist ((alistGet l k2).getD []) := by
  by_cases h : k = k2
  · subst h
    rw [alistGet_set_self]
    exact hsub
  · rw [alistGet_set_ne _ _ _ _ h]

theorem pruneAttempts_active (s : ConnectionManagerState) (uid : Nat)
    (cip : Option Nat) (now : Int) :
    (pruneAttempts s uid cip now).active_connections = s.active_connections := by
  cases cip <;> rfl

theorem pruneAttempts_info (s : ConnectionManagerState) (uid : Nat)
    (cip : Option Nat) (now : Int) :
    (pruneAttempts s uid cip now).connection_info = s.connection_info := by
  cases cip <;> rfl

theorem recordAttempts_active (s : ConnectionManagerState) (uid : Nat)
    (cip : Option Nat) (now : Int) :
    (recordAttempts s uid cip now).active_connections = s.active_connections := by
  cases cip <;> rfl

theorem recordAttempts_info (s : ConnectionManagerState) (uid : Nat)
    (cip : Option Nat) (now : Int) :
    (recordAttempts s uid cip now).connection_info = s.connection_info := by
  cases cip <;> rfl

theorem pruneAttempts_user_dict (s : ConnectionManagerState) (uid : Nat)
    (cip : Option Nat) (now : Int) :
    (alistGet (pruneAttempts s uid cip now).connection_attempts uid).getD [] =
      clean_old_attempts now ((alistGet s.connection_attempts uid).getD []) := by
  cases cip <;> simp [pruneAttempts, alistGet_set_self]

theorem pruneAttempts_ip_dict (s : ConnectionManagerState) (uid ip : Nat) (now : Int) :
    (alistGet (pruneAttempts s uid (some ip) now).ip_connection_attempts ip).getD [] =
      clean_old_attempts now ((alistGet s.ip_connection_attempts ip).getD []) := by
  simp [pruneAttempts, alistGet_set_self]

theorem recordAttempts_user_dict (s : ConnectionManagerState) (uid : Nat)
    (cip : Option Nat) (now : Int) :
    (alistGet (recordAttempts s uid cip now).connection_attempts uid).getD [] =
      (alistGet s.connection_attempts uid).getD [] ++ [now] := by
  cases cip <;> simp [recordAttempts, record_attempt, alistGet_set_self]

theorem recordAttempts_ip_dict (s : ConnectionManagerState) (uid ip : Nat) (now : Int) :
    (alistGet (recordAttempts s uid (some ip) now).ip_connection_attempts ip).getD [] =
      (alistGet s.ip_connection_attempts ip).getD [] ++ [now] := by
  simp [recordAttempts, record_attempt, alistGet_set_self]

theorem connect_cases (s : ConnectionManagerState) (ws uid : Nat) (phase : String)
    (sid cip : Option Nat) (now : Int) (acceptOk : Bool) :
    connect s ws uid phase sid cip now acceptOk = (false, pruneAttempts s uid none now) ∨
    connect s ws uid phase sid cip now acceptOk = (false, pruneAttempts s uid cip now) ∨
    ((clean_old_attempts now ((alistGet s.connection_attempts uid).getD [])).length <
        MAX_CONNECTION_ATTEMPTS_PER_MINUTE ∧
     (∀ ip, cip = some ip →
       (clean_old_attempts now ((alistGet s.ip_connection_attempts ip).getD [])).length <
         MAX_CONNECTION_ATTEMPTS_PER_MINUTE) ∧
     get_user_connection_count s uid < MAX_CONNECTIONS_PER_USER ∧
     ((acceptOk = false ∧
        connect s ws uid phase sid cip now acceptOk =
          (false, recordAttempts (pruneAttempts s uid cip now) uid cip now)) ∨
      (acceptOk = true ∧
        connect s ws uid phase sid cip now acceptOk =
          (true,
           { recordAttempts (pruneAttempts s uid cip now) uid cip now with
              active_connections :=
                alistSet s.active_connections uid
                  (let conns := (alistGet s.active_connections uid).getD []
                   if conns.contains ws then conns else conns ++ [ws]),
              connection_info :=
                alistSet s.connection_info ws
                  { user_id := uid, user_phase := phase, session_id := sid
                    client_ip := cip, connected_at := now, message_count := 0 } })))) := by
  by_cases hu10 : MAX_CONNECTION_ATTEMPTS_PER_MINUTE ≤
      (clean_old_attempts now ((alistGet s.connection_attempts uid).getD [])).length
  · left
    rw [connect_user_rate_reject s ws uid phase sid cip now acceptOk hu10]
    simp [pruneAttempts]
  · have hu : (clean_old_attempts now
        ((alistGet s.connection_attempts uid).getD [])).length <
        MAX_CONNECTION_ATTEMPTS_PER_MINUTE := Nat.lt_of_not_le hu10
    have hipCase : (∃ ip, cip = some ip ∧ MAX_CONNECTION_ATTEMPTS_PER_MINUTE ≤
        (clean_old_attempts now ((alistGet s.ip_connection_attempts ip).getD [])).length) ∨
        (∀ ip, cip = some ip →
          (clean_old_attempts now ((alistGet s.ip_connection_attempts ip).getD [])).length <
            MAX_CONNECTION_ATTEMPTS_PER_MINUTE) := by
      cases cip with
      | none => exact Or.inr (fun ip h => nomatch h)
      | some ip =>
          by_cases hip10 : MAX_CONNECTION_ATTEMPTS_PER_MINUTE ≤
              (clean_old_attempts now ((alistGet s.ip_connection_attempts ip).getD [])).length
          · exact Or.inl ⟨ip, rfl, hip10⟩
          · exact Or.inr (fun ip2 he => by
              cases he
              exact Nat.lt_of_not_le hip10)
    rcases hipCase with ⟨ip, hcip, hip10⟩ | hip
    · right; left
      subst hcip
      rw [connect_ip_rate_reject s ws uid phase sid ip now acceptOk hu hip10]
      simp [pruneAttempts]
    · by_cases hcnt : MAX_CONNECTIONS_PER_USER ≤ get_user_connection_count s uid
      · right; left
        rw [connect_count_reject s ws uid phase sid cip now acceptOk hu hip hcnt]
      · have hcnt2 : get_user_connection_count s uid < MAX_CONNECTIONS_PER_USER :=
          Nat.lt_of_not_le hcnt
        right; right
        refine ⟨hu, hip, hcnt2, ?_⟩
        cases acceptOk with
        | false =>
            exact Or.inl ⟨rfl, connect_accept_fail s ws uid phase sid cip now hu hip hcnt2⟩
        | true =>
            exact Or.inr ⟨rfl, connect_success s ws uid phase sid cip now hu hip hcnt2⟩

theorem alistGet_not_mem_keys {α : Type} (l : List (Nat × α)) (k : Nat)
    (h : k ∉ l.map Prod.fst) : alistGet l k = none := by
  induction l with
  | nil => rfl
  | cons p rest ih =>
      obtain ⟨k₀, v⟩ := p
      simp only [List.map_cons, List.mem_cons, not_or] at h
      simp only [alistGet]
      rw [if_neg (fun he : k₀ = k => h.1 he.symm)]
      exact ih h.2

theorem alistGet_remove_ne {α : Type} (l : List (Nat × α)) (k k2 : Nat) (h : k ≠ k2) :
    alistGet (alistRemove l k) k2 = alistGet l k2 := by
  induction l with
  | nil => rfl
  | cons p rest ih =>
      obtain ⟨k₀, v⟩ := p
      simp only [alistRemove]
      by_cases hk : k₀ = k
      · rw [if_pos hk]
        simp only [alistGet]
        rw [if_neg (fun he : k₀ = k2 => h (hk.symm.trans he))]
      · rw [if_neg hk]
        simp only [alistGet]
        by_cases hk2 : k₀ = k2
        · rw [if_pos hk2, if_pos hk2]
        · rw [if_neg hk2, if_neg hk2]
          exact ih

theorem alistGet_remove_self {α : Type} (l : List (Nat × α)) (k : Nat)
    (hnd : (l.map Prod.fst).Nodup) : alistGet (alistRemove l k) k = none := by
  induction l with
  | nil => rfl
  | cons p rest ih =>
      obtain ⟨k₀, v⟩ := p
      simp only [List.map_cons, List.nodup_cons] at hnd
      simp only [alistRemove]
      by_cases hk : k₀ = k
      · rw [if_pos hk]
        exact alistGet_not_mem_keys rest k (fun hm => hnd.1 (hk ▸ hm))
      · rw [if_neg hk]
        simp only [alistGet]
        rw [if_neg hk]
        exact ih hnd.2

theorem pruneAttempts_sublists (s : ConnectionManagerState) (uid : Nat)
    (cip : Option Nat) (now : Int) (idf : Nat) :
    ((alistGet (pruneAttempts s uid cip now).connection_attempts idf).getD []).Sublist
      ((alistGet s.connection_attempts idf).getD []) ∧
    ((alistGet (pruneAttempts s uid cip now).ip_connection_attempts idf).getD []).Sublist
      ((alistGet s.ip_connection_attempts idf).getD []) := by
  cases cip with
  | none =>
      constructor
      · exact alistGet_set_getD_sublist (List.filter_sublist _) idf
      · exact List.Sublist.refl _
  | some ip =>
      constructor
      · exact alistGet_set_getD_sublist (List.filter_sublist _) idf
      · exact alistGet_set_getD_sublist (List.filter_sublist _) idf

/-- C6. If any rejection condition holds (user attempts in the window at the
limit, client-identifier attempts at the limit, or the user at the concurrent
connection cap), `connect` returns false with no connection added, no
metadata added, and no attempt recorded (the attempt logs only shrink, by
lazy pruning); consequently the per-user connection count never exceeds the
cap of 5 — it is preserved by `connect` and (for a registry whose dict keys
are unique, as Python dicts are) never increased by `disconnect` — and a
6th concurrent connect call returns false. -/
theorem c6_connection_admission (s : ConnectionManagerState) (ws uid : Nat) (phase : String)
    (sid cip : Option Nat) (now : Int) (acceptOk : Bool) :
    ((MAX_CONNECTION_ATTEMPTS_PER_MINUTE ≤
        (clean_old_attempts now ((alistGet s.connection_attempts uid).getD [])).length ∨
      (∃ ip, cip = some ip ∧ MAX_CONNECTION_ATTEMPTS_PER_MINUTE ≤
        (clean_old_attempts now ((alistGet s.ip_connection_attempts ip).getD [])).length) ∨
      MAX_CONNECTIONS_PER_USER ≤ get_user_connection_count s uid) →
      (connect s ws uid phase sid cip now acceptOk).1 = false ∧
      (connect s ws uid phase sid cip now acceptOk).2.active_connections =
        s.active_connections ∧
      (connect s ws uid phase sid cip now acceptOk).2.connection_info =
        s.connection_info ∧
      (∀ idf,
        ((alistGet (connect s ws uid phase sid cip now acceptOk).2.connection_attempts
          idf).getD []).Sublist ((alistGet s.connection_attempts idf).getD []) ∧
        ((alistGet (connect s ws uid phase sid cip now acceptOk).2.ip_connection_attempts
          idf).getD []).Sublist ((alistGet s.ip_connection_attempts idf).getD []))) ∧
    ((∀ u, get_user_connection_count s u ≤ MAX_CONNECTIONS_PER_USER) →
      ∀ u, get_user_connection_count (connect s ws uid phase sid cip now acceptOk).2 u ≤
        MAX_CONNECTIONS_PER_USER) ∧
    (MAX_CONNECTIONS_PER_USER ≤ get_user_connection_count s uid →
      (connect s ws uid phase sid cip now acceptOk).1 = false) ∧
    ((s.active_connections.map Prod.fst).Nodup →
      ∀ u, get_user_connection_count (disconnect s ws).2 u ≤
        get_user_connection_count s u) := by
  have hpart1 : (MAX_CONNECTION_ATTEMPTS_PER_MINUTE ≤
        (clean_old_attempts now ((alistGet s.connection_attempts uid).getD [])).length ∨
      (∃ ip, cip = some ip ∧ MAX_CONNECTION_ATTEMPTS_PER_MINUTE ≤
        (clean_old_attempts now ((alistGet s.ip_connection_attempts ip).getD [])).length) ∨
      MAX_CONNECTIONS_PER_USER ≤ get_user_connection_count s uid) →
      (connect s ws uid phase sid cip now acceptOk).1 = false ∧
      (connect s ws uid phase sid cip now acceptOk).2.active_connections =
        s.active_connections ∧
      (connect s ws uid phase sid cip now acceptOk).2.connection_info =
        s.connection_info ∧
      (∀ idf,
        ((alistGet (connect s ws uid phase sid cip now acceptOk).2.connection_attempts
          idf).getD []).Sublist ((alistGet s.connection_attempts idf).getD []) ∧
        ((alistGet (connect s ws uid phase sid cip now acceptOk).2.ip_connection_attempts
          idf).getD []).Sublist ((alistGet s.ip_connection_attempts idf).getD [])) := by
    intro hrej
    rcases connect_cases s ws uid phase sid cip now acceptOk with h1 | h2 |
      ⟨hu, hip, hcnt, _⟩
    · rw [h1]
      exact ⟨rfl, pruneAttempts_active s uid none now, pruneAttempts_info s uid none now,
        fun idf => pruneAttempts_sublists s uid none now idf⟩
    · rw [h2]
      exact ⟨rfl, pruneAttempts_active s uid cip now, pruneAttempts_info s uid cip now,
        fun idf => pruneAttempts_sublists s uid cip now idf⟩
    · exfalso
      rcases hrej with h | ⟨ip, he, h⟩ | h
      · omega
      · have := hip ip he
        omega
      · omega
  refine ⟨hpart1, ?_, fun h => (hpart1 (Or.inr (Or.inr h))).1, ?_⟩
  · intro hall u
    rcases connect_cases s ws uid phase sid cip now acceptOk with h1 | h2 |
      ⟨hu, hip, hcnt, ⟨_, hD⟩ | ⟨_, hE⟩⟩
    · rw [h1]
      simpa [get_user_connection_count, pruneAttempts_active] using hall u
    · rw [h2]
      simpa [get_user_connection_count, pruneAttempts_active] using hall u
    · rw [hD]
      simpa [get_user_connection_count, recordAttempts_active, pruneAttempts_active]
        using hall u
    · rw [hE]
      have h5 : get_user_connection_count s uid =
          ((alistGet s.active_connections uid).getD []).length := rfl
      by_cases hu2 : uid = u
      · subst hu2
        show ((alistGet (alistSet s.active_connections uid _) uid).getD []).length ≤ _
        rw [alistGet_set_self]
        simp only [Option.getD_some]
        have h6 := hall uid
        rw [h5] at h6
        have h7 : ((alistGet s.active_connections uid).getD []).length <
            MAX_CONNECTIONS_PER_USER := by
          rw [h5] at hcnt
          exact hcnt
        by_cases hmem : ((alistGet s.active_connections uid).getD []).contains ws
        · simp only [if_pos hmem]
          exact h6
        · simp only [if_neg hmem, List.length_append, List.length_singleton]
          omega
      · show ((alistGet (alistSet s.active_connections uid _) u).getD []).length ≤ _
        rw [alistGet_set_ne _ _ _ _ hu2]
        exact hall u
  · intro hnd u
    unfold disconnect
    cases hinfo : alistGet s.connection_info ws with
    | none => exact le_refl _
    | some info =>
        dsimp only
        cases hconns : alistGet s.active_connections info.user_id with
        | none => exact le_refl _
        | some conns =>
            dsimp only
            by_cases hemp : (conns.filter (fun c => c != ws)).isEmpty
            · rw [if_pos hemp]
              show ((alistGet (alistRemove s.active_connections info.user_id) u).getD
                []).length ≤ _
              by_cases hu2 : info.user_id = u
              · subst hu2
                rw [alistGet_remove_self _ _ hnd]
                simp
              · rw [alistGet_remove_ne _ _ _ hu2]
                exact le_refl (get_user_connection_count s u)
            · rw [if_neg hemp]
              show ((alistGet (alistSet s.active_connections info.user_id _) u).getD
                []).length ≤ _
              by_cases hu2 : info.user_id = u
              · subst hu2
                rw [alistGet_set_self]
                simp only [Option.getD_some]
                have hsub := List.filter_sublist (p := fun c => c != ws) conns
                have hlen := hsub.length_le
                have h8 : get_user_connection_count s info.user_id = conns.length := by
                  simp [get_user_connection_count, hconns]
                rw [h8]
                exact hlen
              · rw [alistGet_set_ne _ _ _ _ hu2]
                exact le_refl (get_user_connection_count s u)


/-- C7. With the attempt window full (10 recent timestamps) for the user
identifier — or for the supplied client identifier — `connect` returns false
regardless of the concurrent-connection count; entries older than 60 seconds
are pruned lazily on each call, every stored timestamp for the user after a
call lies within the window, and stale entries do not count toward the
limit: with fewer than 10 recent attempts on both identifiers and a free
connection slot, the call succeeds. -/
theorem c7_rate_limit_window (s : ConnectionManagerState) (ws uid : Nat) (phase : String)
    (sid cip : Option Nat) (now : Int) (acceptOk : Bool) :
    (MAX_CONNECTION_ATTEMPTS_PER_MINUTE ≤
        (clean_old_attempts now ((alistGet s.connection_attempts uid).getD [])).length →
      (connect s ws uid phase sid cip now acceptOk).1 = false) ∧
    (∀ ip, cip = some ip →
      MAX_CONNECTION_ATTEMPTS_PER_MINUTE ≤
        (clean_old_attempts now ((alistGet s.ip_connection_attempts ip).getD [])).length →
      (connect s ws uid phase sid cip now acceptOk).1 = false) ∧
    (∀ ts ∈ (alistGet (connect s ws uid phase sid cip now acceptOk).2.connection_attempts
        uid).getD [],
      now - CONNECTION_ATTEMPT_WINDOW_SECONDS < ts) ∧
    ((clean_old_attempts now ((alistGet s.connection_attempts uid).getD [])).length <
        MAX_CONNECTION_ATTEMPTS_PER_MINUTE →
      (∀ ip, cip = some ip →
        (clean_old_attempts now ((alistGet s.ip_connection_attempts ip).getD [])).length <
          MAX_CONNECTION_ATTEMPTS_PER_MINUTE) →
      get_user_connection_count s uid < MAX_CONNECTIONS_PER_USER →
      acceptOk = true →
      (connect s ws uid phase sid cip now acceptOk).1 = true) := by
  have hmemclean : ∀ (l : List Int) (ts : Int), ts ∈ clean_old_attempts now l →
      now - CONNECTION_ATTEMPT_WINDOW_SECONDS < ts := by
    intro l ts hts
    simp only [clean_old_attempts, List.mem_filter, decide_eq_true_eq] at hts
    exact hts.2
  refine ⟨?_, ?_, ?_, ?_⟩
  · intro h
    rcases connect_cases s ws uid phase sid cip now acceptOk with h1 | h2 |
      ⟨hu, hip, hcnt, _⟩
    · rw [h1]
    · rw [h2]
    · omega
  · intro ip he h
    rcases connect_cases s ws uid phase sid cip now acceptOk with h1 | h2 |
      ⟨hu, hip, hcnt, _⟩
    · rw [h1]
    · rw [h2]
    · have := hip ip he
      omega
  · intro ts hts
    rcases connect_cases s ws uid phase sid cip now acceptOk with h1 | h2 |
      ⟨hu, hip, hcnt, ⟨_, hD⟩ | ⟨_, hE⟩⟩
    · rw [h1] at hts
      rw [pruneAttempts_user_dict] at hts
      exact hmemclean _ ts hts
    · rw [h2] at hts
      rw [pruneAttempts_user_dict] at hts
      exact hmemclean _ ts hts
    · rw [hD] at hts
      rw [recordAttempts_user_dict, pruneAttempts_user_dict] at hts
      rcases List.mem_append.mp hts with hm | hm
      · exact hmemclean _ ts hm
      · have : ts = now := by simpa using hm
        subst this
        norm_num [CONNECTION_ATTEMPT_WINDOW_SECONDS]
    · rw [hE] at hts
      have hdict : (({ recordAttempts (pruneAttempts s uid cip now) uid cip now with
          active_connections :=
            alistSet s.active_connections uid
              (let conns := (alistGet s.active_connections uid).getD []
               if conns.contains ws then conns else conns ++ [ws]),
          connection_info :=
            alistSet s.connection_info ws
              { user_id := uid, user_phase := phase, session_id := sid
                client_ip := cip, connected_at := now, message_count := 0 } } :
          ConnectionManagerState)).connection_attempts =
          (recordAttempts (pruneAttempts s uid cip now) uid cip now).connection_attempts :=
        rfl
      rw [hdict, recordAttempts_user_dict, pruneAttempts_user_dict] at hts
      rcases List.mem_append.mp hts with hm | hm
      · exact hmemclean _ ts hm
      · have : ts = now := by simpa using hm
        subst this
        norm_num [CONNECTION_ATTEMPT_WINDOW_SECONDS]
  · intro hu hip hcnt ha
    subst ha
    rw [connect_success s ws uid phase sid cip now hu hip hcnt]


/-- C10. When all three admission checks pass but the transport accept
raises, `connect` returns false with no connection added and no metadata
stored, yet the attempt timestamps recorded before the accept remain: the
user's and client's logs end with the new timestamp. The metadata write
itself (a dict assignment) is modelled as non-failing. -/
theorem c10_attempts_recorded_before_accept (s : ConnectionManagerState) (ws uid : Nat) (phase : String)
    (sid : Option Nat) (ip : Nat) (now : Int)
    (hu : (clean_old_attempts now ((alistGet s.connection_attempts uid).getD [])).length <
      MAX_CONNECTION_ATTEMPTS_PER_MINUTE)
    (hip : (clean_old_attempts now ((alistGet s.ip_connection_attempts ip).getD [])).length <
      MAX_CONNECTION_ATTEMPTS_PER_MINUTE)
    (hc : get_user_connection_count s uid < MAX_CONNECTIONS_PER_USER) :
    (connect s ws uid phase sid (some ip) now false).1 = false ∧
    (connect s ws uid phase sid (some ip) now false).2.active_connections =
      s.active_connections ∧
    (connect s ws uid phase sid (some ip) now false).2.connection_info =
      s.connection_info ∧
    (alistGet (connect s ws uid phase sid (some ip) now false).2.connection_attempts
      uid).getD [] =
      clean_old_attempts now ((alistGet s.connection_attempts uid).getD []) ++ [now] ∧
    (alistGet (connect s ws uid phase sid (some ip) now false).2.ip_connection_attempts
      ip).getD [] =
      clean_old_attempts now ((alistGet s.ip_connection_attempts ip).getD []) ++ [now] := by
  have hip2 : ∀ ip2, (some ip : Option Nat) = some ip2 →
      (clean_old_attempts now ((alistGet s.ip_connection_attempts ip2).getD [])).length <
        MAX_CONNECTION_ATTEMPTS_PER_MINUTE := by
    intro ip2 he
    cases he
    exact hip
  rw [connect_accept_fail s ws uid phase sid (some ip) now hu hip2 hc]
  refine ⟨rfl, ?_, ?_, ?_, ?_⟩
  · rw [recordAttempts_active, pruneAttempts_active]
  · rw [recordAttempts_info, pruneAttempts_info]
  · rw [recordAttempts_user_dict, pruneAttempts_user_dict]
  · rw [recordAttempts_ip_dict, pruneAttempts_ip_dict]


/-- Witness for `c6_connection_admission`: a user with 5 registered
connections; the 6th concurrent connect call is refused with no state
change, and the cap is preserved. -/
theorem c6_witness :
    (connect ⟨[(1, [10, 11, 12, 13, 14])], [], [], []⟩ 20 1 "goal_setting"
      none none 0 true).1 = false ∧
    (connect ⟨[(1, [10, 11, 12, 13, 14])], [], [], []⟩ 20 1 "goal_setting"
      none none 0 true).2.active_connections =
      (⟨[(1, [10, 11, 12, 13, 14])], [], [], []⟩ :
        ConnectionManagerState).active_connections ∧
    get_user_connection_count
      (connect ⟨[(1, [10, 11, 12, 13, 14])], [], [], []⟩ 20 1 "goal_setting"
        none none 0 true).2 1 ≤ MAX_CONNECTIONS_PER_USER :=
  ⟨((c6_connection_admission ⟨[(1, [10, 11, 12, 13, 14])], [], [], []⟩ 20 1
      "goal_setting" none none 0 true).1 (Or.inr (Or.inr (by decide)))).1,
   ((c6_connection_admission ⟨[(1, [10, 11, 12, 13, 14])], [], [], []⟩ 20 1
      "goal_setting" none none 0 true).1 (Or.inr (Or.inr (by decide)))).2.1,
   (c6_connection_admission ⟨[(1, [10, 11, 12, 13, 14])], [], [], []⟩ 20 1
      "goal_setting" none none 0 true).2.1
     (by
       intro u
       by_cases h : (1 : Nat) = u
       · subst h
         decide
       · simp [get_user_connection_count, alistGet, h]) 1⟩

/-- Witness for `c7_rate_limit_window`: 10 recent attempts reject the 11th
call even with zero live connections, while an old (pruned) attempt does not
prevent admission. -/
theorem c7_witness :
    (connect ⟨[], [], [(1, [50, 50, 50, 50, 50, 50, 50, 50, 50, 50])], []⟩ 20 1
      "goal_setting" none none 100 true).1 = false ∧
    (connect ⟨[], [], [(1, [-100])], []⟩ 20 1 "goal_setting"
      none none 0 true).1 = true :=
  ⟨(c7_rate_limit_window ⟨[], [], [(1, [50, 50, 50, 50, 50, 50, 50, 50, 50, 50])], []⟩
      20 1 "goal_setting" none none 100 true).1 (by decide),
   (c7_rate_limit_window ⟨[], [], [(1, [-100])], []⟩ 20 1 "goal_setting"
      none none 0 true).2.2.2 (by decide) (fun ip he => nomatch he) (by decide) rfl⟩

/-- Witness for `c10_attempts_recorded_before_accept`: admission checks pass
but the transport accept raises; connect returns false, no connection or
metadata is added, and the attempt timestamps (user and client) remain. -/
theorem c10_witness :
    (connect ⟨[], [], [(1, [50])], [(9, [30])]⟩ 20 1 "goal_setting" none (some 9)
      100 false).1 = false ∧
    (connect ⟨[], [], [(1, [50])], [(9, [30])]⟩ 20 1 "goal_setting" none (some 9)
      100 false).2.active_connections =
      (⟨[], [], [(1, [50])], [(9, [30])]⟩ : ConnectionManagerState).active_connections ∧
    (connect ⟨[], [], [(1, [50])], [(9, [30])]⟩ 20 1 "goal_setting" none (some 9)
      100 false).2.connection_info =
      (⟨[], [], [(1, [50])], [(9, [30])]⟩ : ConnectionManagerState).connection_info ∧
    (alistGet (connect ⟨[], [], [(1, [50])], [(9, [30])]⟩ 20 1 "goal_setting" none
      (some 9) 100 false).2.connection_attempts 1).getD [] =
      clean_old_attempts 100 [50] ++ [100] ∧
    (alistGet (connect ⟨[], [], [(1, [50])], [(9, [30])]⟩ 20 1 "goal_setting" none
      (some 9) 100 false).2.ip_connection_attempts 9).getD [] =
      clean_old_attempts 100 [30] ++ [100] :=
  c10_attempts_recorded_before_accept ⟨[], [], [(1, [50])], [(9, [30])]⟩ 20 1
    "goal_setting" none 9 100 (by decide) (by decide) (by decide)

/-! ## Summarization lemmas -/

theorem maybe_summarize_below_threshold (db : SessionContextDb) (uid : Nat)
    (llm : Except Unit (Option (List RawContextPoint))) (saveOk : Bool)
    (uuid : String) (now : Int)
    (h : (get_unsummarized_sessions db uid).length < SUMMARIZATION_THRESHOLD) :
    maybe_summarize_old_sessions db uid llm saveOk uuid now = (none, db) := by
  unfold maybe_summarize_old_sessions
  rw [if_pos h]

theorem create_session_summary_llm_failure (uid : Nat)
    (sessions : List SessionContext) (llm : Except Unit (Option (List RawContextPoint)))
    (uuid : String) (now : Int)
    (h : llm = .error () ∨ llm = .ok none) :
    create_session_summary uid sessions llm uuid now = none := by
  unfold create_session_summary
  cases sessions with
  | nil => rfl
  | cons s0 rest =>
      dsimp only
      split
      · rfl
      · rcases h with h | h <;> rw [h]

theorem create_session_summary_no_points (uid : Nat)
    (sessions : List SessionContext) (llm : Except Unit (Option (List RawContextPoint)))
    (uuid : String) (now : Int)
    (h : ∀ s ∈ sessions, s.context_points = []) :
    create_session_summary uid sessions llm uuid now = none := by
  unfold create_session_summary
  cases sessions with
  | nil => rfl
  | cons s0 rest =>
      dsimp only
      rw [if_pos ?_]
      rw [List.isEmpty_iff, List.flatMap_eq_nil_iff]
      intro s hs
      rw [h s hs]
      rfl

theorem create_session_summary_produces (uid : Nat) (s0 : SessionContext)
    (rest : List SessionContext) (pts : List RawContextPoint)
    (uuid : String) (now : Int)
    (hne : ¬((s0 :: rest).flatMap (fun s =>
      s.context_points.map (fun p => "- [" ++ p.type ++ "] " ++ p.content))).isEmpty = true) :
    ∃ doc, create_session_summary uid (s0 :: rest) (.ok (some pts)) uuid now = some doc ∧
      doc.user_id = uid ∧ doc.is_summary = true ∧
      doc.summarized_session_ids = some ((s0 :: rest).map (fun s => s.session_id)) := by
  unfold create_session_summary
  dsimp only
  rw [if_neg hne]
  exact ⟨_, rfl, rfl, rfl, rfl⟩

theorem create_session_summary_props (uid : Nat) (sessions : List SessionContext)
    (llm : Except Unit (Option (List RawContextPoint))) (uuid : String) (now : Int)
    (doc : SessionContextDoc)
    (h : create_session_summary uid sessions llm uuid now = some doc) :
    doc.user_id = uid ∧ doc.is_summary = true ∧
      doc.summarized_session_ids = some (sessions.map (fun s => s.session_id)) := by
  unfold create_session_summary at h
  cases sessions with
  | nil => exact absurd h (by simp)
  | cons s0 rest =>
      dsimp only at h
      by_cases hp : ((s0 :: rest).flatMap (fun s =>
          s.context_points.map (fun p => "- [" ++ p.type ++ "] " ++ p.content))).isEmpty
      · rw [if_pos hp] at h
        exact absurd h (by simp)
      · rw [if_neg hp] at h
        cases llm with
        | error e => exact absurd h (by simp)
        | ok o =>
            cases o with
            | none => exact absurd h (by simp)
            | some pts =>
                rw [← Option.some.inj h]
                exact ⟨rfl, rfl, rfl⟩

theorem maybe_summarize_save_failed (db : SessionContextDb) (uid : Nat)
    (llm : Except Unit (Option (List RawContextPoint))) (uuid : String) (now : Int)
    (doc : SessionContextDoc)
    (hlen : SUMMARIZATION_THRESHOLD ≤ (get_unsummarized_sessions db uid).length)
    (hdoc : create_session_summary uid
      ((get_unsummarized_sessions db uid).take SESSIONS_TO_SUMMARIZE) llm uuid now =
      some doc) :
    maybe_summarize_old_sessions db uid llm false uuid now =
      (none,
       { sessions := db.sessions.filter (fun s =>
           !((((get_unsummarized_sessions db uid).take SESSIONS_TO_SUMMARIZE).map
             (fun x => x.sid)).contains s.sid))
         next_id := db.next_id }) := by
  unfold maybe_summarize_old_sessions
  rw [if_neg (Nat.not_lt.mpr hlen)]
  dsimp only
  rw [hdoc]
  rfl

theorem maybe_summarize_save_ok (db : SessionContextDb) (uid : Nat)
    (llm : Except Unit (Option (List RawContextPoint))) (uuid : String) (now : Int)
    (doc : SessionContextDoc)
    (hlen : SUMMARIZATION_THRESHOLD ≤ (get_unsummarized_sessions db uid).length)
    (hdoc : create_session_summary uid
      ((get_unsummarized_sessions db uid).take SESSIONS_TO_SUMMARIZE) llm uuid now =
      some doc) :
    maybe_summarize_old_sessions db uid llm true uuid now =
      (some db.next_id,
       { sessions := ((insertSessionContext db doc).2.sessions).filter (fun s =>
           !((((get_unsummarized_sessions db uid).take SESSIONS_TO_SUMMARIZE).map
             (fun x => x.sid)).contains s.sid))
         next_id := db.next_id + 1 }) := by
  unfold maybe_summarize_old_sessions
  rw [if_neg (Nat.not_lt.mpr hlen)]
  dsimp only
  rw [hdoc]
  rfl

/-- C3 (amended). A provider failure or an unparsable reply leaves the
backlog exactly unchanged, as does a candidate batch with no context points
(no summary is produced in those cases); but once a summary document is
produced, the 10 oldest unsummarized records are deleted even when the save
of the summary record fails — the failed save only loses the summary record
itself (`maybe_summarize` checks `if summary:` but ignores the result of
`save_session_context`). The original claim, that a failed save leaves the
backlog unchanged, is refuted by `c3_counterexample`. -/
theorem c3_no_partial_summarize_amended (db : SessionContextDb) (uid : Nat)
    (llm : Except Unit (Option (List RawContextPoint))) (saveOk : Bool)
    (uuid : String) (now : Int) :
    ((llm = .error () ∨ llm = .ok none) →
      maybe_summarize_old_sessions db uid llm saveOk uuid now = (none, db)) ∧
    ((∀ s ∈ (get_unsummarized_sessions db uid).take SESSIONS_TO_SUMMARIZE,
        s.context_points = []) →
      maybe_summarize_old_sessions db uid llm saveOk uuid now = (none, db)) ∧
    (∀ doc, SUMMARIZATION_THRESHOLD ≤ (get_unsummarized_sessions db uid).length →
      create_session_summary uid
        ((get_unsummarized_sessions db uid).take SESSIONS_TO_SUMMARIZE) llm uuid now =
        some doc →
      maybe_summarize_old_sessions db uid llm false uuid now =
        (none,
         { sessions := db.sessions.filter (fun s =>
             !((((get_unsummarized_sessions db uid).take SESSIONS_TO_SUMMARIZE).map
               (fun x => x.sid)).contains s.sid))
           next_id := db.next_id })) := by
  refine ⟨?_, ?_, fun doc hlen hdoc => maybe_summarize_save_failed db uid llm uuid now
    doc hlen hdoc⟩
  · intro h
    by_cases hlen : (get_unsummarized_sessions db uid).length < SUMMARIZATION_THRESHOLD
    · exact maybe_summarize_below_threshold db uid llm saveOk uuid now hlen
    · unfold maybe_summarize_old_sessions
      rw [if_neg hlen]
      dsimp only
      rw [create_session_summary_llm_failure uid _ llm uuid now h]
  · intro h
    by_cases hlen : (get_unsummarized_sessions db uid).length < SUMMARIZATION_THRESHOLD
    · exact maybe_summarize_below_threshold db uid llm saveOk uuid now hlen
    · unfold maybe_summarize_old_sessions
      rw [if_neg hlen]
      dsimp only
      rw [create_session_summary_no_points uid _ llm uuid now h]


/-- Counterexample to C3 as stated: 20 unsummarized records for user 7, a
valid parsed summary reply, and a failing save; afterwards only 10
unsummarized records remain and no summary record exists — the backlog lost
its 10 oldest records with no summary saved. -/
theorem c3_counterexample :
    (unsummarized_for ⟨(List.range 20).map (fun i =>
      ⟨i, 7, "", (i : Int), none,
       if i = 0 then [⟨"decision", "x", none, 0⟩] else [], 2, 0, 0, 0, false, none⟩),
      100⟩ 7).length = 20 ∧
    (maybe_summarize_old_sessions ⟨(List.range 20).map (fun i =>
      ⟨i, 7, "", (i : Int), none,
       if i = 0 then [⟨"decision", "x", none, 0⟩] else [], 2, 0, 0, 0, false, none⟩),
      100⟩ 7 (.ok (some [⟨some "decision", some "d"⟩])) false "u" 50).1 = none ∧
    (unsummarized_for (maybe_summarize_old_sessions ⟨(List.range 20).map (fun i =>
      ⟨i, 7, "", (i : Int), none,
       if i = 0 then [⟨"decision", "x", none, 0⟩] else [], 2, 0, 0, 0, false, none⟩),
      100⟩ 7 (.ok (some [⟨some "decision", some "d"⟩])) false "u" 50).2 7).length = 10 ∧
    (summaries_for (maybe_summarize_old_sessions ⟨(List.range 20).map (fun i =>
      ⟨i, 7, "", (i : Int), none,
       if i = 0 then [⟨"decision", "x", none, 0⟩] else [], 2, 0, 0, 0, false, none⟩),
      100⟩ 7 (.ok (some [⟨some "decision", some "d"⟩])) false "u" 50).2 7).length = 0 := by
  refine ⟨?_, ?_, ?_, ?_⟩ <;> decide


/-- Witness for `c3_no_partial_summarize_amended`: a provider exception
leaves the 20-record backlog unchanged, and a produced summary whose save
fails still deletes the 10 oldest records. -/
theorem c3_witness :
    maybe_summarize_old_sessions ⟨(List.range 20).map (fun i =>
        ⟨i, 7, "", (i : Int), none,
         if i = 0 then [⟨"decision", "x", none, 0⟩] else [], 2, 0, 0, 0, false, none⟩),
        100⟩ 7 (.error ()) true "u" 50 =
      (none, ⟨(List.range 20).map (fun i =>
        ⟨i, 7, "", (i : Int), none,
         if i = 0 then [⟨"decision", "x", none, 0⟩] else [], 2, 0, 0, 0, false, none⟩),
        100⟩) ∧
    maybe_summarize_old_sessions ⟨(List.range 20).map (fun i =>
        ⟨i, 7, "", (i : Int), none,
         if i = 0 then [⟨"decision", "x", none, 0⟩] else [], 2, 0, 0, 0, false, none⟩),
        100⟩ 7 (.ok (some [⟨some "decision", some "d"⟩])) false "u" 50 =
      (none,
       { sessions := ((⟨(List.range 20).map (fun i =>
           ⟨i, 7, "", (i : Int), none,
            if i = 0 then [⟨"decision", "x", none, 0⟩] else [], 2, 0, 0, 0, false, none⟩),
           100⟩ : SessionContextDb)).sessions.filter (fun s =>
             !((((get_unsummarized_sessions ⟨(List.range 20).map (fun i =>
               ⟨i, 7, "", (i : Int), none,
                if i = 0 then [⟨"decision", "x", none, 0⟩] else [], 2, 0, 0, 0, false,
                none⟩), 100⟩ 7).take SESSIONS_TO_SUMMARIZE).map
               (fun x => x.sid)).contains s.sid))
         next_id := 100 }) :=
  ⟨(c3_no_partial_summarize_amended ⟨(List.range 20).map (fun i =>
      ⟨i, 7, "", (i : Int), none,
       if i = 0 then [⟨"decision", "x", none, 0⟩] else [], 2, 0, 0, 0, false, none⟩),
      100⟩ 7 (.error ()) true "u" 50).1 (Or.inl rfl),
   (c3_no_partial_summarize_amended ⟨(List.range 20).map (fun i =>
      ⟨i, 7, "", (i : Int), none,
       if i = 0 then [⟨"decision", "x", none, 0⟩] else [], 2, 0, 0, 0, false, none⟩),
      100⟩ 7 (.ok (some [⟨some "decision", some "d"⟩])) false "u" 50).2.2
     ⟨7, "summary-u", 0, some 9,
      [⟨"decision", "d", none, 9⟩], 20, 0, 0, 0, true,
      some ["", "", "", "", "", "", "", "", "", ""]⟩ (by decide) (by decide)⟩

/-! ## Summarization batch (C4) -/

theorem nat_contains_iff (l : List Nat) (a : Nat) : l.contains a = true ↔ a ∈ l :=
  List.elem_iff

theorem sorted_batch_facts (U : List SessionContext)
    (hnodup : (U.map (fun s => s.sid)).Nodup) :
    (U.filter (fun s =>
      !((((sortOn (fun x => x.created_at) U).take SESSIONS_TO_SUMMARIZE).map
        (fun x => x.sid)).contains s.sid))).length =
      U.length - ((sortOn (fun x => x.created_at) U).take SESSIONS_TO_SUMMARIZE).length ∧
    (∀ s ∈ (sortOn (fun x => x.created_at) U).take SESSIONS_TO_SUMMARIZE, s ∈ U) ∧
    (∀ s ∈ (sortOn (fun x => x.created_at) U).take SESSIONS_TO_SUMMARIZE, ∀ t ∈ U,
      t.sid ∉ ((sortOn (fun x => x.created_at) U).take SESSIONS_TO_SUMMARIZE).map
        (fun x => x.sid) →
      s.created_at ≤ t.created_at) := by
  set S := sortOn (fun x => x.created_at) U with hS
  set consumed := S.take SESSIONS_TO_SUMMARIZE with hconsumed
  set ids := consumed.map (fun x => x.sid) with hids
  have hperm : S.Perm U := sortOn_perm _ U
  have hpermlen : S.length = U.length := hperm.length_eq
  have hSnodup : (S.map (fun s => s.sid)).Nodup :=
    (List.Perm.nodup_iff (hperm.map _)).mpr hnodup
  have hsplit : consumed ++ S.drop SESSIONS_TO_SUMMARIZE = S :=
    List.take_append_drop _ S
  have hdisj : ∀ t ∈ S.drop SESSIONS_TO_SUMMARIZE, t.sid ∉ ids := by
    intro t ht hmem
    have h1 : (consumed.map (fun s => s.sid) ++
        (S.drop SESSIONS_TO_SUMMARIZE).map (fun s => s.sid)).Nodup := by
      rw [← List.map_append, hsplit]
      exact hSnodup
    rw [List.nodup_append] at h1
    exact h1.2.2 hmem (List.mem_map_of_mem _ ht)
  have hmemconsumed : ∀ s ∈ consumed, s ∈ U := by
    intro s hs
    exact hperm.mem_iff.mp ((List.take_sublist _ _).subset hs)
  refine ⟨?_, hmemconsumed, ?_⟩
  · have h1 : (U.filter (fun s => !(ids.contains s.sid))).length =
        (S.filter (fun s => !(ids.contains s.sid))).length :=
      ((hperm.filter _).length_eq).symm
    rw [h1, ← hsplit, List.filter_append]
    have h2 : consumed.filter (fun s => !(ids.contains s.sid)) = [] := by
      rw [List.filter_eq_nil_iff]
      intro s hs
      have hm : ids.contains s.sid = true :=
        (nat_contains_iff ids s.sid).mpr (List.mem_map_of_mem _ hs)
      simp only [hm, Bool.not_true, Bool.false_eq_true, not_false_eq_true]
    have h3 : (S.drop SESSIONS_TO_SUMMARIZE).filter (fun s => !(ids.contains s.sid)) =
        S.drop SESSIONS_TO_SUMMARIZE := by
      rw [List.filter_eq_self]
      intro t ht
      cases hc : ids.contains t.sid with
      | false => rfl
      | true => exact absurd ((nat_contains_iff ids t.sid).mp hc) (hdisj t ht)
    rw [h2, h3, List.nil_append, List.length_drop, hconsumed, List.length_take]
    omega
  · intro s hs t ht hnot
    have htS : t ∈ S := hperm.mem_iff.mpr ht
    have htc : t ∉ consumed := fun hc => hnot (List.mem_map_of_mem _ hc)
    have htd : t ∈ S.drop SESSIONS_TO_SUMMARIZE := by
      have hm : t ∈ consumed ++ S.drop SESSIONS_TO_SUMMARIZE := by
        rw [hsplit]; exact htS
      rcases List.mem_append.mp hm with h | h
      · exact absurd h htc
      · exact h
    have hpw := sortOn_pairwise (fun x => x.created_at) U
    rw [← hS, ← hsplit, List.pairwise_append] at hpw
    exact hpw.2.2 s hs t htd

theorem oldest_batch_def (db : SessionContextDb) (uid : Nat) :
    oldest_batch db uid =
    (sortOn (fun x => x.created_at) (unsummarized_for db uid)).take
      SESSIONS_TO_SUMMARIZE := rfl

theorem get_unsummarized_take (db : SessionContextDb) (uid : Nat) :
    (get_unsummarized_sessions db uid).take SESSIONS_TO_SUMMARIZE =
    oldest_batch db uid := by
  show ((sortOn (fun x => x.created_at) (unsummarized_for db uid)).take 100).take
      SESSIONS_TO_SUMMARIZE = oldest_batch db uid
  rw [List.take_take]
  have h : min SESSIONS_TO_SUMMARIZE 100 = SESSIONS_TO_SUMMARIZE := by decide
  rw [h]
  rfl

theorem get_unsummarized_length (db : SessionContextDb) (uid : Nat) :
    (get_unsummarized_sessions db uid).length =
    min 100 (unsummarized_for db uid).length := by
  show ((sortOn (fun x => x.created_at) (unsummarized_for db uid)).take 100).length = _
  rw [List.length_take, (sortOn_perm _ _).length_eq]

theorem filter_singleton_pos {α : Type} (p : α → Bool) (x : α) (h : p x = true) :
    [x].filter p = [x] := by
  rw [List.filter_singleton, h]; rfl

theorem filter_singleton_neg {α : Type} (p : α → Bool) (x : α) (h : p x = false) :
    [x].filter p = [] := by
  rw [List.filter_singleton, h]; rfl

theorem maybe_summarize_consumes (db : SessionContextDb) (uid : Nat)
    (llm : Except Unit (Option (List RawContextPoint))) (uuid : String) (now : Int)
    (doc : SessionContextDoc)
    (hnodup : (db.sessions.map (fun s => s.sid)).Nodup)
    (hwf : ∀ s ∈ db.sessions, s.sid < db.next_id)
    (hlen : SUMMARIZATION_THRESHOLD ≤ (unsummarized_for db uid).length)
    (hdoc : create_session_summary uid (oldest_batch db uid) llm uuid now = some doc) :
    (maybe_summarize_old_sessions db uid llm true uuid now).1 = some db.next_id ∧
    (oldest_batch db uid).length = SESSIONS_TO_SUMMARIZE ∧
    (unsummarized_for (maybe_summarize_old_sessions db uid llm true uuid now).2 uid).length
      = (unsummarized_for db uid).length - SESSIONS_TO_SUMMARIZE ∧
    (∃ rec,
      summaries_for (maybe_summarize_old_sessions db uid llm true uuid now).2 uid
        = summaries_for db uid ++ [rec] ∧
      rec.is_summary = true ∧ rec.sid = db.next_id ∧
      rec.summarized_session_ids =
        some ((oldest_batch db uid).map (fun s => s.session_id))) ∧
    (∀ s ∈ oldest_batch db uid, s ∈ unsummarized_for db uid ∧
      ∀ t ∈ (maybe_summarize_old_sessions db uid llm true uuid now).2.sessions,
        t.sid ≠ s.sid) ∧
    (∀ s ∈ oldest_batch db uid, ∀ t ∈ unsummarized_for db uid,
      t.sid ∉ (oldest_batch db uid).map (fun x => x.sid) →
      s.created_at ≤ t.created_at) := by
  have hthr : SUMMARIZATION_THRESHOLD = 20 := rfl
  have hsts : SESSIONS_TO_SUMMARIZE = 10 := rfl
  have hlen' : SUMMARIZATION_THRESHOLD ≤ (get_unsummarized_sessions db uid).length := by
    rw [get_unsummarized_length]
    omega
  have hdoc' : create_session_summary uid
      ((get_unsummarized_sessions db uid).take SESSIONS_TO_SUMMARIZE) llm uuid now =
      some doc := by
    rw [get_unsummarized_take]; exact hdoc
  have hrun := maybe_summarize_save_ok db uid llm uuid now doc hlen' hdoc'
  rw [get_unsummarized_take] at hrun
  obtain ⟨hduid, hdsum, hdids⟩ := create_session_summary_props uid _ llm uuid now doc hdoc
  have hUnodup : ((unsummarized_for db uid).map (fun s => s.sid)).Nodup :=
    hnodup.sublist ((List.filter_sublist _).map _)
  obtain ⟨hcount, hmemU, holdest⟩ :=
    sorted_batch_facts (unsummarized_for db uid) hUnodup
  rw [← oldest_batch_def db uid] at hcount hmemU holdest
  have hBlen : (oldest_batch db uid).length = SESSIONS_TO_SUMMARIZE := by
    rw [oldest_batch_def, List.length_take, (sortOn_perm _ _).length_eq]
    omega
  set r : SessionContext :=
    ⟨db.next_id, doc.user_id, doc.session_id, doc.created_at, doc.ended_at,
     doc.context_points, doc.message_count, doc.goals_created, doc.goals_updated,
     doc.goals_completed, doc.is_summary, doc.summarized_session_ids⟩ with hr
  have hins : (insertSessionContext db doc).2.sessions = db.sessions ++ [r] := rfl
  have hr_sid : r.sid = db.next_id := rfl
  have hr_sum : r.is_summary = true := hdsum
  have hr_uid : r.user_id = uid := hduid
  have hr_ids : r.summarized_session_ids =
      some ((oldest_batch db uid).map (fun s => s.session_id)) := hdids
  have hidlt : ∀ i ∈ (oldest_batch db uid).map (fun x => x.sid), i < db.next_id := by
    intro i hi
    obtain ⟨b, hb, hbeq⟩ := List.mem_map.mp hi
    have hbU := hmemU b hb
    have hbA : b ∈ db.sessions := List.mem_of_mem_filter hbU
    rw [← hbeq]
    exact hwf b hbA
  have hrp : (fun s => !(((oldest_batch db uid).map (fun x => x.sid)).contains s.sid))
      r = true := by
    simp only
    cases hc : ((oldest_batch db uid).map (fun x => x.sid)).contains r.sid with
    | false => rfl
    | true =>
        have hmem := (nat_contains_iff _ _).mp hc
        have hlt := hidlt _ hmem
        rw [hr_sid] at hlt
        exact absurd hlt (lt_irrefl _)
  have hrq : (fun s => s.user_id == uid && !s.is_summary) r = false := by
    simp only [hdsum, Bool.not_true, Bool.and_false]
  have hrq2 : (fun s => s.user_id == uid && s.is_summary) r = true := by
    simp only [hduid, hdsum, Bool.and_true, beq_self_eq_true]
  have hfp := filter_singleton_pos
    (fun s => !(((oldest_batch db uid).map (fun x => x.sid)).contains s.sid)) r hrp
  have hfq := filter_singleton_neg
    (fun s => s.user_id == uid && !s.is_summary) r hrq
  have hfq2 := filter_singleton_pos
    (fun s => s.user_id == uid && s.is_summary) r hrq2
  rw [hrun]
  dsimp only
  refine ⟨rfl, hBlen, ?_, ?_, ?_, holdest⟩
  · dsimp only [unsummarized_for]
    rw [hins, List.filter_append, hfp, List.filter_append,
      hfq, List.append_nil, ← List.filter_comm]
    have heq : db.sessions.filter (fun s => s.user_id == uid && !s.is_summary) =
        unsummarized_for db uid := rfl
    rw [heq, hcount, hBlen]
  · refine ⟨r, ?_, hr_sum, hr_sid, hr_ids⟩
    dsimp only [summaries_for]
    rw [hins, List.filter_append, hfp, List.filter_append,
      hfq2, ← List.filter_comm]
    congr 1
    rw [List.filter_eq_self]
    intro t htmem
    cases hc : ((oldest_batch db uid).map (fun x => x.sid)).contains t.sid with
    | false => rfl
    | true =>
        obtain ⟨b, hb, hbeq⟩ := List.mem_map.mp ((nat_contains_iff _ _).mp hc)
        have hbU := hmemU b hb
        obtain ⟨hbA, hbq⟩ := List.mem_filter.mp hbU
        obtain ⟨htA, htq⟩ := List.mem_filter.mp htmem
        have hbt : b = t := List.inj_on_of_nodup_map hnodup hbA htA hbeq
        rw [Bool.and_eq_true] at hbq htq
        have h1 : b.is_summary = false := by
          have h2 := hbq.2
          rwa [Bool.not_eq_true'] at h2
        rw [hbt, htq.2] at h1
        simp at h1
  · intro s hs
    refine ⟨hmemU s hs, ?_⟩
    intro t htmem hts
    obtain ⟨-, htp⟩ := List.mem_filter.mp htmem
    have hm : t.sid ∈ (oldest_batch db uid).map (fun x => x.sid) := by
      rw [hts]; exact List.mem_map_of_mem _ hs
    rw [(nat_contains_iff _ _).mpr hm] at htp
    simp at htp

theorem extract_session_context_props (uid : Nat) (session_id : String)
    (hist : List HistoryMsg) (llm : Except Unit (Option ExtractPayload)) (now : Int)
    (doc : SessionContextDoc)
    (h : extract_session_context uid session_id hist llm now = some doc) :
    doc.user_id = uid ∧ doc.is_summary = false ∧ ¬(hist.length < 2) := by
  unfold extract_session_context at h
  by_cases hl : hist.length < 2
  · rw [if_pos hl] at h
    exact absurd h (by simp)
  · rw [if_neg hl] at h
    cases llm with
    | error e => exact absurd h (by simp)
    | ok o =>
        cases o with
        | none => exact absurd h (by simp)
        | some payload =>
            dsimp only at h
            rw [← Option.some.inj h]
            exact ⟨rfl, rfl, hl⟩

theorem insert_context_facts (db : SessionContextDb) (uid : Nat)
    (doc : SessionContextDoc) (huid : doc.user_id = uid)
    (hsum : doc.is_summary = false)
    (hnodup : (db.sessions.map (fun s => s.sid)).Nodup)
    (hwf : ∀ s ∈ db.sessions, s.sid < db.next_id) :
    (unsummarized_for (insertSessionContext db doc).2 uid).length =
      (unsummarized_for db uid).length + 1 ∧
    summaries_for (insertSessionContext db doc).2 uid = summaries_for db uid ∧
    ((insertSessionContext db doc).2.sessions.map (fun s => s.sid)).Nodup ∧
    (∀ s ∈ (insertSessionContext db doc).2.sessions,
      s.sid < (insertSessionContext db doc).2.next_id) := by
  set r : SessionContext :=
    ⟨db.next_id, doc.user_id, doc.session_id, doc.created_at, doc.ended_at,
     doc.context_points, doc.message_count, doc.goals_created, doc.goals_updated,
     doc.goals_completed, doc.is_summary, doc.summarized_session_ids⟩ with hr
  have hins : (insertSessionContext db doc).2.sessions = db.sessions ++ [r] := rfl
  have hrq : (fun s => s.user_id == uid && !s.is_summary) r = true := by
    simp only [huid, hsum, Bool.not_false, Bool.and_true, beq_self_eq_true]
  have hrq2 : (fun s => s.user_id == uid && s.is_summary) r = false := by
    simp only [hsum, Bool.and_false]
  have hf1 := filter_singleton_pos (fun s => s.user_id == uid && !s.is_summary) r hrq
  have hf2 := filter_singleton_neg (fun s => s.user_id == uid && s.is_summary) r hrq2
  refine ⟨?_, ?_, ?_, ?_⟩
  · dsimp only [unsummarized_for]
    rw [hins, List.filter_append, hf1, List.length_append]
    rfl
  · dsimp only [summaries_for]
    rw [hins, List.filter_append, hf2, List.append_nil]
  · rw [hins, List.map_append, List.nodup_append]
    refine ⟨hnodup, List.nodup_singleton _, ?_⟩
    intro a ha hb
    obtain ⟨b, hbmem, hbeq⟩ := List.mem_map.mp ha
    have hlt : b.sid < db.next_id := hwf b hbmem
    have hb' : a = db.next_id := by simpa using hb
    omega
  · intro s hs
    rw [hins] at hs
    show s.sid < db.next_id + 1
    rcases List.mem_append.mp hs with h | h
    · exact Nat.lt_succ_of_lt (hwf s h)
    · have he : s = r := List.mem_singleton.mp h
      rw [he]
      exact Nat.lt_succ_self db.next_id

/-- C4: once a user's unsummarized `session_contexts` backlog reaches the
threshold of 20, `maybe_summarize_old_sessions` consumes exactly the 10
oldest unsummarized records (by `created_at`): it produces exactly one new
record with `is_summary = true` whose `summarized_session_ids` lists the 10
consumed records' session ids, deletes exactly those 10 records (every
non-consumed record has a different `_id`), and each consumed record is no
younger than any surviving unsummarized record; below the threshold the call
is a no-op. In particular, starting from exactly 20 unsummarized records, a
successful extraction-plus-summarization through
`extract_and_save_context` leaves 11 unsummarized records and one more
summary record — 12 user records in total when no summary existed before.
(`_id`s are pairwise distinct and below `next_id`, as Mongo guarantees.) -/
theorem c4_summarization_batch (db : SessionContextDb) (uid : Nat)
    (llm : Except Unit (Option (List RawContextPoint)))
    (llmExtract : Except Unit (Option ExtractPayload))
    (saveOk : Bool) (uuid session_id : String) (now : Int)
    (conversation_history : Option (List HistoryMsg)) (fetched : List HistoryMsg)
    (hnodup : (db.sessions.map (fun s => s.sid)).Nodup)
    (hwf : ∀ s ∈ db.sessions, s.sid < db.next_id) :
    ((unsummarized_for db uid).length < SUMMARIZATION_THRESHOLD →
      maybe_summarize_old_sessions db uid llm saveOk uuid now = (none, db)) ∧
    (∀ doc, SUMMARIZATION_THRESHOLD ≤ (unsummarized_for db uid).length →
      create_session_summary uid (oldest_batch db uid) llm uuid now = some doc →
      (maybe_summarize_old_sessions db uid llm true uuid now).1 = some db.next_id ∧
      (oldest_batch db uid).length = SESSIONS_TO_SUMMARIZE ∧
      (unsummarized_for (maybe_summarize_old_sessions db uid llm true uuid now).2
        uid).length = (unsummarized_for db uid).length - SESSIONS_TO_SUMMARIZE ∧
      (∃ rec,
        summaries_for (maybe_summarize_old_sessions db uid llm true uuid now).2 uid
          = summaries_for db uid ++ [rec] ∧
        rec.is_summary = true ∧ rec.sid = db.next_id ∧
        rec.summarized_session_ids =
          some ((oldest_batch db uid).map (fun s => s.session_id))) ∧
      (∀ s ∈ oldest_batch db uid, s ∈ unsummarized_for db uid ∧
        ∀ t ∈ (maybe_summarize_old_sessions db uid llm true uuid now).2.sessions,
          t.sid ≠ s.sid) ∧
      (∀ s ∈ oldest_batch db uid, ∀ t ∈ unsummarized_for db uid,
        t.sid ∉ (oldest_batch db uid).map (fun x => x.sid) →
        s.created_at ≤ t.created_at)) ∧
    (∀ doc1 doc2, (unsummarized_for db uid).length = SUMMARIZATION_THRESHOLD →
      extract_session_context uid session_id (conversation_history.getD fetched)
        llmExtract now = some doc1 →
      doc1.context_points.isEmpty = false →
      create_session_summary uid (oldest_batch (insertSessionContext db doc1).2 uid)
        llm uuid now = some doc2 →
      (extract_and_save_context db uid session_id conversation_history fetched
        llmExtract llm true true uuid now).1 = some db.next_id ∧
      (unsummarized_for (extract_and_save_context db uid session_id
        conversation_history fetched llmExtract llm true true uuid now).2
        uid).length = 11 ∧
      (summaries_for (extract_and_save_context db uid session_id
        conversation_history fetched llmExtract llm true true uuid now).2
        uid).length = (summaries_for db uid).length + 1 ∧
      (unsummarized_for (extract_and_save_context db uid session_id
        conversation_history fetched llmExtract llm true true uuid now).2
        uid).length +
      (summaries_for (extract_and_save_context db uid session_id
        conversation_history fetched llmExtract llm true true uuid now).2
        uid).length = 12 + (summaries_for db uid).length) := by
  have hthr : SUMMARIZATION_THRESHOLD = 20 := rfl
  have hsts : SESSIONS_TO_SUMMARIZE = 10 := rfl
  refine ⟨?_, ?_, ?_⟩
  · intro h
    apply maybe_summarize_below_threshold
    rw [get_unsummarized_length]
    omega
  · intro doc hlen hdoc
    exact maybe_summarize_consumes db uid llm uuid now doc hnodup hwf hlen hdoc
  · intro doc1 doc2 h20 hdoc1 hpts hdoc2
    obtain ⟨hduid1, hdsum1, hlen2⟩ :=
      extract_session_context_props uid session_id _ llmExtract now doc1 hdoc1
    obtain ⟨hlen1, hsummEq, hnodup1, hwf1⟩ :=
      insert_context_facts db uid doc1 hduid1 hdsum1 hnodup hwf
    have hth1 : SUMMARIZATION_THRESHOLD ≤
        (unsummarized_for (insertSessionContext db doc1).2 uid).length := by
      rw [hlen1, h20]
      exact Nat.le_succ _
    obtain ⟨hres1, hblen, hcount2, ⟨rec, hsumm2, hrsum, hrsid, hrids⟩, hgone, hold⟩ :=
      maybe_summarize_consumes (insertSessionContext db doc1).2 uid llm uuid now
        doc2 hnodup1 hwf1 hth1 hdoc2
    have hrun2 : extract_and_save_context db uid session_id conversation_history
        fetched llmExtract llm true true uuid now =
        (some db.next_id,
         (maybe_summarize_old_sessions (insertSessionContext db doc1).2 uid llm
           true uuid now).2) := by
      unfold extract_and_save_context
      dsimp only
      rw [if_neg hlen2, hdoc1]
      dsimp only
      rw [if_neg (by simp [hpts])]
      rfl
    have e2 : (unsummarized_for (extract_and_save_context db uid session_id
        conversation_history fetched llmExtract llm true true uuid now).2
        uid).length = 11 := by
      rw [hrun2]
      dsimp only
      rw [hcount2, hlen1, h20]
      omega
    have e3 : (summaries_for (extract_and_save_context db uid session_id
        conversation_history fetched llmExtract llm true true uuid now).2
        uid).length = (summaries_for db uid).length + 1 := by
      rw [hrun2]
      dsimp only
      rw [hsumm2, hsummEq, List.length_append]
      rfl
    refine ⟨by rw [hrun2], e2, e3, by omega⟩

/-- Witness for `c4_summarization_batch`: for user 8 (no records) the call is
a no-op; for user 7 with the 20-record backlog the batch run returns the new
`_id` 100 and leaves 10 unsummarized records; the full extraction call leaves
11 unsummarized records and exactly one summary record. -/
theorem c4_witness :
    maybe_summarize_old_sessions c4Db 8 c4Llm true "u" 50 = (none, c4Db) ∧
    (maybe_summarize_old_sessions c4Db 7 c4Llm true "u" 50).1 = some 100 ∧
    (unsummarized_for
      (maybe_summarize_old_sessions c4Db 7 c4Llm true "u" 50).2 7).length = 10 ∧
    (extract_and_save_context c4Db 7 "s" (some c4Hist) [] c4LlmExtract c4Llm
      true true "u" 50).1 = some 100 ∧
    (unsummarized_for (extract_and_save_context c4Db 7 "s" (some c4Hist) []
      c4LlmExtract c4Llm true true "u" 50).2 7).length = 11 ∧
    (summaries_for (extract_and_save_context c4Db 7 "s" (some c4Hist) []
      c4LlmExtract c4Llm true true "u" 50).2 7).length = 0 + 1 := by
  have h8 := c4_summarization_batch c4Db 8 c4Llm c4LlmExtract true "u" "s" 50
    (some c4Hist) [] (by decide) (by decide)
  have h7 := c4_summarization_batch c4Db 7 c4Llm c4LlmExtract true "u" "s" 50
    (some c4Hist) [] (by decide) (by decide)
  have hB := h7.2.1 c4SummaryDoc (by decide) (by decide)
  have hC := h7.2.2 c4ExtractDoc c4SummaryDoc (by decide) (by decide) (by decide)
    (by decide)
  exact ⟨h8.1 (by decide), hB.1, hB.2.2.1, hC.1, hC.2.1, hC.2.2.1⟩

end GoalGetter
